import Mathlib

/-!
Verification development for the animated rendering core of a terminal
presentation tool (banner animations, multi-banner orchestration, and
asciinema cast replay).

Modelling conventions:
* wall-clock instants and durations are exact rationals (`ℚ`); banner code
  works in milliseconds (`Duration::from_millis` / `as_millis`, the latter
  being the floor of the elapsed millisecond count), playback code in seconds
  (`as_secs_f64`);
* `f32`/`f64` arithmetic is modelled as exact rational arithmetic; the
  transcendental primitives (`sin`, `cos`, `atan2`, `sqrt`, `π`) are abstract
  parameters, so results proved about them hold for every interpretation;
* `usize` arithmetic is modelled on `ℕ` with explicit wrap-around subtraction
  where the source subtracts.
-/

/-- Modelled from the spec: the pollable contract's result states
(`PollableState` in `render/operation.rs`, outside the provided sources):
`Modified` (redraw needed), `Unmodified` (no change), `Done` (terminal
transition). -/
inductive PollableState where
  | modified
  | unmodified
  | done
deriving DecidableEq, Repr

/-- Run state of one banner animation instance (`AnimationState` in
`banner.rs`): current hue offset, optional start instant (milliseconds),
completion flag. -/
structure AnimationState where
  hue_offset : ℚ
  start_time : Option ℚ
  completed : Bool
deriving DecidableEq, Repr

/-- The state a `RainbowBannerAnimation` is created with
(`RainbowBannerAnimation::new` in `banner.rs`). -/
def AnimationState.initial : AnimationState :=
  { hue_offset := 0, start_time := none, completed := false }

/-- One call of `RainbowAnimationPollable::poll` (`banner.rs`) at instant
`now` (milliseconds). `duration` is the cycle length in whole milliseconds.
First call arms the start instant and returns `Modified`; a non-looping
animation past its cycle completes once (`Done`) and then reports
`Unmodified`; otherwise the hue offset is recomputed and `Modified` is
returned. -/
def RainbowAnimationPollable.poll (loop_animation : Bool) (duration : ℕ)
    (s : AnimationState) (now : ℚ) : AnimationState × PollableState :=
  match s.start_time with
  | none => ({ s with start_time := some now }, .modified)
  | some st =>
    let elapsed : ℚ := now - st
    if (duration : ℚ) ≤ elapsed ∧ loop_animation = false then
      if s.completed = false then ({ s with completed := true }, .done)
      else (s, .unmodified)
    else
      let progress : ℚ :=
        if loop_animation then (((⌊elapsed⌋ % (duration : ℤ) : ℤ)) : ℚ) / (duration : ℚ)
        else min ((⌊elapsed⌋ : ℚ) / (duration : ℚ)) 1
      ({ s with hue_offset := progress * 360 }, .modified)

/-- Run state of one asciinema playback instance (`PlaybackState` in
`asciinema.rs`): optional start instant (seconds), current playback time,
completion flag. -/
structure PlaybackState where
  start_time : Option ℚ
  current_time : ℚ
  completed : Bool
deriving DecidableEq, Repr

/-- The state an `AsciinemaPlayer` is created with (`AsciinemaPlayer::new`). -/
def PlaybackState.initial : PlaybackState :=
  { start_time := none, current_time := 0, completed := false }

/-- One call of `AsciinemaPlaybackPollable::poll` (`asciinema.rs`) at instant
`now` (seconds), with recording duration `dur` and speed multiplier
`speed`. -/
def AsciinemaPlaybackPollable.poll (dur : ℚ) (loop_playback : Bool) (speed : ℚ)
    (s : PlaybackState) (now : ℚ) : PlaybackState × PollableState :=
  match s.start_time with
  | none => ({ s with start_time := some now, current_time := 0 }, .modified)
  | some st =>
    let playback_time : ℚ := (now - st) * speed
    if dur ≤ playback_time then
      if loop_playback then
        ({ s with start_time := some now, current_time := 0 }, .modified)
      else if s.completed = false then
        ({ s with current_time := dur, completed := true }, .done)
      else (s, .unmodified)
    else ({ s with current_time := playback_time }, .modified)

/-- Repeated polling of a banner pollable at the given instants; returns the
state after each call paired with that call's result. -/
def pollTraceBanner (loopA : Bool) (dur : ℕ) :
    AnimationState → List ℚ → List (AnimationState × PollableState)
  | _, [] => []
  | s, t :: ts =>
    let p := RainbowAnimationPollable.poll loopA dur s t
    p :: pollTraceBanner loopA dur p.1 ts

/-- Repeated polling of a playback pollable at the given instants. -/
def pollTracePlayback (dur : ℚ) (loopP : Bool) (speed : ℚ) :
    PlaybackState → List ℚ → List (PlaybackState × PollableState)
  | _, [] => []
  | s, t :: ts =>
    let p := AsciinemaPlaybackPollable.poll dur loopP speed s t
    p :: pollTracePlayback dur loopP speed p.1 ts

lemma bannerPoll_completed {dur : ℕ} {s : AnimationState} {st now : ℚ}
    (hst : s.start_time = some st) (hc : s.completed = true)
    (h : (dur : ℚ) ≤ now - st) :
    RainbowAnimationPollable.poll false dur s now = (s, .unmodified) := by
  simp [RainbowAnimationPollable.poll, hst, hc, h]

lemma bannerPoll_crosses {dur : ℕ} {s : AnimationState} {st now : ℚ}
    (hst : s.start_time = some st) (hc : s.completed = false)
    (h : (dur : ℚ) ≤ now - st) :
    RainbowAnimationPollable.poll false dur s now
      = ({ s with completed := true }, .done) := by
  simp [RainbowAnimationPollable.poll, hst, hc, h]

lemma bannerPoll_running {dur : ℕ} {s : AnimationState} {st now : ℚ}
    (hst : s.start_time = some st) (h : ¬ (dur : ℚ) ≤ now - st) :
    RainbowAnimationPollable.poll false dur s now
      = ({ s with hue_offset := min ((⌊now - st⌋ : ℚ) / (dur : ℚ)) 1 * 360 },
         .modified) := by
  simp [RainbowAnimationPollable.poll, hst, h]

lemma pollTraceBanner_completed {dur : ℕ} {s : AnimationState} (st : ℚ)
    {ts : List ℚ}
    (hst : s.start_time = some st) (hc : s.completed = true)
    (hall : ∀ t ∈ ts, st + dur ≤ t) :
    pollTraceBanner false dur s ts
      = List.replicate ts.length (s, .unmodified) := by
  induction ts with
  | nil => simp [pollTraceBanner]
  | cons t ts ih =>
    have ht : (dur : ℚ) ≤ t - st := by
      have := hall t (by simp)
      linarith
    rw [pollTraceBanner]
    rw [bannerPoll_completed hst hc ht]
    simp only [List.length_cons, List.replicate_succ, List.cons.injEq, true_and]
    exact ih (fun t ht' => hall t (by simp [ht']))

lemma pollTraceBanner_reaches {dur : ℕ} (st : ℚ) :
    ∀ {ts : List ℚ} (s : AnimationState),
    s.start_time = some st → s.completed = false →
    List.Pairwise (· ≤ ·) ts → (∃ t ∈ ts, st + dur ≤ t) →
    ∃ pre m sD,
      pollTraceBanner false dur s ts
        = pre ++ (sD, PollableState.done)
            :: List.replicate m (sD, PollableState.unmodified) ∧
      ∀ p ∈ pre, p.2 = PollableState.modified := by
  intro ts
  induction ts with
  | nil => intro s _ _ _ hex; simp at hex
  | cons t ts ih =>
    intro s hst hc hpw hex
    by_cases ht : (dur : ℚ) ≤ t - st
    · -- the threshold is crossed at this very call: `Done` now, then frozen
      refine ⟨[], ts.length, { s with completed := true }, ?_, by simp⟩
      rw [pollTraceBanner, bannerPoll_crosses hst hc ht]
      simp only [List.nil_append, List.cons.injEq, true_and]
      refine pollTraceBanner_completed st (by simpa using hst) rfl ?_
      intro t' ht'
      have h1 : t ≤ t' := (List.pairwise_cons.mp hpw).1 t' ht'
      linarith
    · -- still inside the cycle: this call is a `Modified` update
      obtain ⟨tw, htw, hthr⟩ := hex
      have htw' : tw ∈ ts := by
        rcases List.mem_cons.mp htw with h | h
        · exfalso; apply ht; rw [h] at hthr; linarith
        · exact h
      rw [pollTraceBanner, bannerPoll_running hst ht]
      obtain ⟨pre, m, sD, htr, hpre⟩ :=
        ih { s with hue_offset := min ((⌊t - st⌋ : ℚ) / (dur : ℚ)) 1 * 360 }
          (by simpa using hst) (by simpa using hc)
          (List.pairwise_cons.mp hpw).2 ⟨tw, htw', hthr⟩
      refine ⟨({ s with hue_offset := min ((⌊t - st⌋ : ℚ) / (dur : ℚ)) 1 * 360 },
               PollableState.modified) :: pre, m, sD, ?_, ?_⟩
      · simp [htr]
      · intro p hp
        rcases List.mem_cons.mp hp with h | h
        · rw [h]
        · exact hpre p h

lemma playbackPoll_completed {dur speed : ℚ} {s : PlaybackState} {st now : ℚ}
    (hst : s.start_time = some st) (hc : s.completed = true)
    (h : dur ≤ (now - st) * speed) :
    AsciinemaPlaybackPollable.poll dur false speed s now = (s, .unmodified) := by
  simp [AsciinemaPlaybackPollable.poll, hst, hc, h]

lemma playbackPoll_crosses {dur speed : ℚ} {s : PlaybackState} {st now : ℚ}
    (hst : s.start_time = some st) (hc : s.completed = false)
    (h : dur ≤ (now - st) * speed) :
    AsciinemaPlaybackPollable.poll dur false speed s now
      = ({ s with current_time := dur, completed := true }, .done) := by
  simp [AsciinemaPlaybackPollable.poll, hst, hc, h]

lemma playbackPoll_running {dur speed : ℚ} {s : PlaybackState} {st now : ℚ}
    (hst : s.start_time = some st) (h : ¬ dur ≤ (now - st) * speed) :
    AsciinemaPlaybackPollable.poll dur false speed s now
      = ({ s with current_time := (now - st) * speed }, .modified) := by
  simp [AsciinemaPlaybackPollable.poll, hst, h]

lemma pollTracePlayback_completed {dur speed : ℚ} {s : PlaybackState}
    (st : ℚ) {ts : List ℚ}
    (hst : s.start_time = some st) (hc : s.completed = true)
    (hall : ∀ t ∈ ts, dur ≤ (t - st) * speed) :
    pollTracePlayback dur false speed s ts
      = List.replicate ts.length (s, .unmodified) := by
  induction ts with
  | nil => simp [pollTracePlayback]
  | cons t ts ih =>
    rw [pollTracePlayback]
    rw [playbackPoll_completed hst hc (hall t (by simp))]
    simp only [List.length_cons, List.replicate_succ, List.cons.injEq, true_and]
    exact ih (fun t ht' => hall t (by simp [ht']))

lemma pollTracePlayback_reaches {dur speed : ℚ} (st : ℚ) (hsp : 0 ≤ speed) :
    ∀ {ts : List ℚ} (s : PlaybackState),
    s.start_time = some st → s.completed = false →
    List.Pairwise (· ≤ ·) ts → (∃ t ∈ ts, dur ≤ (t - st) * speed) →
    ∃ pre m sD,
      pollTracePlayback dur false speed s ts
        = pre ++ (sD, PollableState.done)
            :: List.replicate m (sD, PollableState.unmodified) ∧
      ∀ p ∈ pre, p.2 = PollableState.modified := by
  intro ts
  induction ts with
  | nil => intro s _ _ _ hex; simp at hex
  | cons t ts ih =>
    intro s hst hc hpw hex
    by_cases ht : dur ≤ (t - st) * speed
    · refine ⟨[], ts.length, { s with current_time := dur, completed := true },
        ?_, by simp⟩
      rw [pollTracePlayback, playbackPoll_crosses hst hc ht]
      simp only [List.nil_append, List.cons.injEq, true_and]
      refine pollTracePlayback_completed st (by simpa using hst) rfl ?_
      intro t' ht'
      have h1 : t ≤ t' := (List.pairwise_cons.mp hpw).1 t' ht'
      have h2 : (t - st) * speed ≤ (t' - st) * speed := by
        apply mul_le_mul_of_nonneg_right _ hsp
        linarith
      linarith
    · obtain ⟨tw, htw, hthr⟩ := hex
      have htw' : tw ∈ ts := by
        rcases List.mem_cons.mp htw with h | h
        · exfalso; apply ht; rw [h] at hthr; exact hthr
        · exact h
      rw [pollTracePlayback, playbackPoll_running hst ht]
      obtain ⟨pre, m, sD, htr, hpre⟩ :=
        ih { s with current_time := (t - st) * speed }
          (by simpa using hst) (by simpa using hc)
          (List.pairwise_cons.mp hpw).2 ⟨tw, htw', hthr⟩
      refine ⟨({ s with current_time := (t - st) * speed },
               PollableState.modified) :: pre, m, sD, ?_, ?_⟩
      · simp [htr]
      · intro p hp
        rcases List.mem_cons.mp hp with h | h
        · rw [h]
        · exact hpre p h

/-- C1: for a non-looping banner animation or playback instance, across any
monotone sequence of polls whose elapsed (speed-scaled, for playback) time
reaches the cycle duration, exactly one call returns `Done`: the trace is a
prefix of `Modified` results, one `Done`, and then only `Unmodified` results
with the run state left unchanged (encoded by repeating the state reached at
the `Done` call). -/
theorem nonloop_exactly_one_done :
    (∀ (dur : ℕ) (t₀ : ℚ) (ts : List ℚ),
      List.Pairwise (· ≤ ·) (t₀ :: ts) →
      (∃ t ∈ ts, t₀ + dur ≤ t) →
      ∃ pre m sD,
        pollTraceBanner false dur AnimationState.initial (t₀ :: ts)
          = pre ++ (sD, PollableState.done)
              :: List.replicate m (sD, PollableState.unmodified) ∧
        ∀ p ∈ pre, p.2 = PollableState.modified) ∧
    (∀ (dur speed t₀ : ℚ) (ts : List ℚ), 0 ≤ speed →
      List.Pairwise (· ≤ ·) (t₀ :: ts) →
      (∃ t ∈ ts, dur ≤ (t - t₀) * speed) →
      ∃ pre m sD,
        pollTracePlayback dur false speed PlaybackState.initial (t₀ :: ts)
          = pre ++ (sD, PollableState.done)
              :: List.replicate m (sD, PollableState.unmodified) ∧
        ∀ p ∈ pre, p.2 = PollableState.modified) := by
  constructor
  · intro dur t₀ ts hpw hex
    rw [pollTraceBanner]
    have harm : RainbowAnimationPollable.poll false dur AnimationState.initial t₀
        = ({ AnimationState.initial with start_time := some t₀ }, .modified) := by
      simp [RainbowAnimationPollable.poll, AnimationState.initial]
    rw [harm]
    obtain ⟨pre, m, sD, htr, hpre⟩ :=
      pollTraceBanner_reaches t₀
        { AnimationState.initial with start_time := some t₀ } rfl rfl
        (List.pairwise_cons.mp hpw).2 hex
    refine ⟨({ AnimationState.initial with start_time := some t₀ },
             PollableState.modified) :: pre, m, sD, by simp [htr], ?_⟩
    intro p hp
    rcases List.mem_cons.mp hp with h | h
    · rw [h]
    · exact hpre p h
  · intro dur speed t₀ ts hsp hpw hex
    rw [pollTracePlayback]
    have harm : AsciinemaPlaybackPollable.poll dur false speed
        PlaybackState.initial t₀
        = ({ PlaybackState.initial with
             start_time := some t₀, current_time := 0 }, .modified) := by
      simp [AsciinemaPlaybackPollable.poll, PlaybackState.initial]
    rw [harm]
    obtain ⟨pre, m, sD, htr, hpre⟩ :=
      pollTracePlayback_reaches t₀ hsp
        { PlaybackState.initial with
          start_time := some t₀, current_time := 0 } rfl rfl
        (List.pairwise_cons.mp hpw).2 hex
    refine ⟨({ PlaybackState.initial with
              start_time := some t₀, current_time := 0 },
             PollableState.modified) :: pre, m, sD, by simp [htr], ?_⟩
    intro p hp
    rcases List.mem_cons.mp hp with h | h
    · rw [h]
    · exact hpre p h

/-- Witness for C1 at a concrete trace: cycle 2 ms polled at 0, 1, 3 ms
(banner) and duration 2 s, speed 1, polled at 0, 1, 3 s (playback). -/
theorem nonloop_exactly_one_done_witness :
    (∃ pre m sD,
      pollTraceBanner false 2 AnimationState.initial [0, 1, 3]
        = pre ++ (sD, PollableState.done)
            :: List.replicate m (sD, PollableState.unmodified) ∧
      ∀ p ∈ pre, p.2 = PollableState.modified) ∧
    (∃ pre m sD,
      pollTracePlayback 2 false 1 PlaybackState.initial [0, 1, 3]
        = pre ++ (sD, PollableState.done)
            :: List.replicate m (sD, PollableState.unmodified) ∧
      ∀ p ∈ pre, p.2 = PollableState.modified) := by
  constructor
  · exact nonloop_exactly_one_done.1 2 0 [1, 3]
      (by norm_num) ⟨3, by norm_num⟩
  · exact nonloop_exactly_one_done.2 2 1 0 [1, 3] (by norm_num)
      (by norm_num) ⟨3, by norm_num⟩

/-- C2 counterexample: a non-looping banner animation with a 100 ms cycle,
polled at 0 ms (arms) and at 100 ms (elapsed = cycle). The second call
returns `Done` — but the stored `hue_offset` is still `0`, not the
end-of-cycle value `360`: `RainbowAnimationPollable::poll` sets only the
`completed` flag in its completion branch and never writes the phase. -/
theorem banner_done_does_not_freeze_at_360 :
    pollTraceBanner false 100 AnimationState.initial [0, 100]
      = [({ hue_offset := 0, start_time := some 0, completed := false },
          PollableState.modified),
         ({ hue_offset := 0, start_time := some 0, completed := true },
          PollableState.done)] ∧
    (0 : ℚ) ≠ 360 := by
  constructor
  · rw [pollTraceBanner]
    have h1 : RainbowAnimationPollable.poll false 100 AnimationState.initial 0
        = ({ hue_offset := 0, start_time := some 0, completed := false },
           PollableState.modified) := by
      simp [RainbowAnimationPollable.poll, AnimationState.initial]
    rw [h1]
    rw [pollTraceBanner]
    have h2 : RainbowAnimationPollable.poll false 100
        { hue_offset := 0, start_time := some 0, completed := false } 100
        = ({ hue_offset := 0, start_time := some 0, completed := true },
           PollableState.done) := by
      have := @bannerPoll_crosses 100
        { hue_offset := 0, start_time := some 0, completed := false }
        0 100 rfl rfl (by norm_num)
      simpa using this
    rw [h2, pollTraceBanner]
  · norm_num

/-- C2 (amended): on the first poll where the speed-scaled elapsed time
reaches the cycle duration, a non-looping playback instance freezes
`current_time` at `duration()`, sets `completed` and returns `Done`; a
non-looping banner animation sets `completed` and returns `Done` on that
call, but leaves `hue_offset` at the value written by the previous poll
(there is no end-of-cycle write of 360). -/
theorem first_crossing_completes :
    (∀ (dur speed : ℚ) (s : PlaybackState) (st now : ℚ),
      s.start_time = some st → s.completed = false →
      dur ≤ (now - st) * speed →
      AsciinemaPlaybackPollable.poll dur false speed s now
        = ({ s with current_time := dur, completed := true },
           PollableState.done)) ∧
    (∀ (dur : ℕ) (s : AnimationState) (st now : ℚ),
      s.start_time = some st → s.completed = false →
      (dur : ℚ) ≤ now - st →
      RainbowAnimationPollable.poll false dur s now
        = ({ s with completed := true }, PollableState.done)) := by
  exact ⟨fun dur speed s st now hst hc h => playbackPoll_crosses hst hc h,
         fun dur s st now hst hc h => bannerPoll_crosses hst hc h⟩

/-- Witness for C2's amended theorem at concrete inputs. -/
theorem first_crossing_completes_witness :
    (AsciinemaPlaybackPollable.poll 2 false 1
        { start_time := some 0, current_time := 1, completed := false } 3
      = ({ start_time := some 0, current_time := 2, completed := true },
         PollableState.done)) ∧
    (RainbowAnimationPollable.poll false 100
        { hue_offset := 180, start_time := some 0, completed := false } 250
      = ({ hue_offset := 180, start_time := some 0, completed := true },
         PollableState.done)) := by
  constructor
  · have := first_crossing_completes.1 2 1
      { start_time := some 0, current_time := 1, completed := false } 0 3
      rfl rfl (by norm_num)
    simpa using this
  · have := first_crossing_completes.2 100
      { hue_offset := 180, start_time := some 0, completed := false } 0 250
      rfl rfl (by norm_num)
    simpa using this

/-- C3: for a looping banner animation (cycle `dur` ms, already armed at
`t₀`), polling at elapsed time `e + k·dur` writes the same `hue_offset` as
polling at elapsed time `e`, and both calls return `Modified`: the phase
depends on the elapsed time only through `elapsed mod cycle`, scaled by 360. -/
theorem looping_hue_periodic (dur : ℕ) (t₀ e : ℚ) (k : ℕ) (s : AnimationState)
    (hst : s.start_time = some t₀) :
    ((RainbowAnimationPollable.poll true dur s (t₀ + e)).1.hue_offset
      = (RainbowAnimationPollable.poll true dur s (t₀ + e + k * dur)).1.hue_offset)
    ∧ (RainbowAnimationPollable.poll true dur s (t₀ + e)).2
        = PollableState.modified
    ∧ (RainbowAnimationPollable.poll true dur s (t₀ + e + k * dur)).2
        = PollableState.modified := by
  have he1 : t₀ + e - t₀ = e := by ring
  have he2 : t₀ + e + k * dur - t₀ = e + (k : ℚ) * dur := by ring
  have hfl : ⌊e + (k : ℚ) * (dur : ℚ)⌋ = ⌊e⌋ + (k * dur : ℕ) := by
    have hc : ((k * dur : ℕ) : ℚ) = (k : ℚ) * dur := by push_cast; ring
    rw [← hc]
    exact_mod_cast Int.floor_add_int e ((k * dur : ℕ) : ℤ)
  have hmod : (⌊e⌋ + ((k * dur : ℕ) : ℤ)) % (dur : ℤ) = ⌊e⌋ % (dur : ℤ) := by
    push_cast
    exact Int.add_mul_emod_self ..
  refine ⟨?_, ?_, ?_⟩ <;>
    simp [RainbowAnimationPollable.poll, hst, he1, he2, hfl, hmod]

/-- Witness for C3: cycle 10 ms, armed at 0, elapsed 3 ms versus 3 + 2·10 ms. -/
theorem looping_hue_periodic_witness :
    ((RainbowAnimationPollable.poll true 10 AnimationState.initial 0).1.hue_offset
      = (RainbowAnimationPollable.poll true 10 AnimationState.initial 0).1.hue_offset)
    ∧ ((RainbowAnimationPollable.poll true 10
          { hue_offset := 0, start_time := some 0, completed := false }
          (0 + 3)).1.hue_offset
        = (RainbowAnimationPollable.poll true 10
            { hue_offset := 0, start_time := some 0, completed := false }
            (0 + 3 + 2 * 10)).1.hue_offset) := by
  refine ⟨rfl, ?_⟩
  exact (looping_hue_periodic 10 0 3 2
    { hue_offset := 0, start_time := some 0, completed := false } rfl).1

/-- Minimal JSON value model. The textual JSON parsing of each cast line is
done by the external `serde_json` crate, so cast lines are modelled at the
parsed-JSON level; numbers are exact rationals. -/
inductive Json where
  | null
  | bool (b : Bool)
  | num (q : ℚ)
  | str (s : String)
  | arr (xs : List Json)
  | obj (fields : List (String × Json))

/-- Deserialization of a `u32` JSON field (`serde`): a number that is a
nonnegative integer below `2^32`. -/
def decodeU32 : Json → Option ℕ
  | .num q =>
    if q.den = 1 ∧ 0 ≤ q.num ∧ q.num < 2 ^ 32 then some q.num.toNat else none
  | _ => none

/-- Deserialization of a `u64` JSON field (`serde`). -/
def decodeU64 : Json → Option ℕ
  | .num q =>
    if q.den = 1 ∧ 0 ≤ q.num ∧ q.num < 2 ^ 64 then some q.num.toNat else none
  | _ => none

/-- Asciinema cast file header (`CastHeader` in `asciinema.rs`): required
`version`, optional `width`/`height`/`timestamp`. -/
structure CastHeader where
  version : ℕ
  width : Option ℕ
  height : Option ℕ
  timestamp : Option ℕ
deriving DecidableEq, Repr

/-- An optional `u32` struct field with `#[serde(default)]`: missing or
`null` gives `none`; a present value must decode. -/
def optU32Field (fields : List (String × Json)) (key : String) :
    Option (Option ℕ) :=
  match List.lookup key fields with
  | none => some none
  | some .null => some none
  | some j => (decodeU32 j).map some

/-- An optional `u64` struct field with `#[serde(default)]`. -/
def optU64Field (fields : List (String × Json)) (key : String) :
    Option (Option ℕ) :=
  match List.lookup key fields with
  | none => some none
  | some .null => some none
  | some j => (decodeU64 j).map some

/-- serde deserialization of `CastHeader` from a JSON value: an object with a
required `version` and optional `width`/`height`/`timestamp`; unknown fields
are ignored. -/
def decodeHeader : Json → Option CastHeader
  | .obj fields =>
    match List.lookup "version" fields with
    | none => none
    | some vj =>
      match decodeU32 vj with
      | none => none
      | some v =>
        match optU32Field fields "width", optU32Field fields "height",
              optU64Field fields "timestamp" with
        | some w, some h, some ts =>
          some { version := v, width := w, height := h, timestamp := ts }
        | _, _, _ => none
  | _ => none

/-- A single frame event in an asciinema recording (`CastEvent` in
`asciinema.rs`): timestamp in seconds, event type, terminal output data. -/
structure CastEvent where
  time : ℚ
  event_type : String
  data : String
deriving DecidableEq, Repr

/-- serde deserialization of `CastEvent` from a JSON value: a three-element
array `[time, type, data]` (struct deserialized from a sequence). -/
def decodeEvent : Json → Option CastEvent
  | .arr [.num t, .str ty, .str d] =>
    some { time := t, event_type := ty, data := d }
  | _ => none

/-- One line of a cast file, at the lexical level `from_cast` observes:
whitespace-only, JSON that `serde_json` parses, or anything else. -/
inductive RawLine where
  | blank
  | bad
  | json (j : Json)

/-- Errors from parsing asciinema recordings (`AsciinemaError` in
`asciinema.rs`); the message/line-number payloads are dropped. -/
inductive AsciinemaError where
  | parseError
  | invalidFormat
  | ioErr
deriving DecidableEq, Repr

/-- A parsed asciinema recording (`AsciinemaRecording` in `asciinema.rs`). -/
structure AsciinemaRecording where
  events : List CastEvent
  width : ℕ
  height : ℕ
deriving DecidableEq, Repr

/-- The event loop of `AsciinemaRecording::from_cast`: blank lines are
skipped, unparsable lines abort, and only events of type `"o"` are retained,
in file order. -/
def parseEvents : List RawLine → Option (List CastEvent)
  | [] => some []
  | .blank :: rest => parseEvents rest
  | .bad :: _ => none
  | .json j :: rest =>
    match decodeEvent j with
    | none => none
    | some ev =>
      (parseEvents rest).map fun evs =>
        if ev.event_type = "o" then ev :: evs else evs

/-- `AsciinemaRecording::from_cast` (`asciinema.rs`): the first line must be
a version-2 header (else a format error), width/height default to 80/24, and
the remaining lines are parsed by `parseEvents`. -/
def AsciinemaRecording.from_cast :
    List RawLine → Except AsciinemaError AsciinemaRecording
  | [] => .error .invalidFormat
  | first :: rest =>
    match first with
    | .json j =>
      match decodeHeader j with
      | none => .error .parseError
      | some hd =>
        if hd.version ≠ 2 then .error .invalidFormat
        else
          match parseEvents rest with
          | none => .error .parseError
          | some evs =>
            .ok { events := evs, width := hd.width.getD 80,
                  height := hd.height.getD 24 }
    | _ => .error .parseError

/-- `AsciinemaRecording::duration`: timestamp of the last retained event, 0
if none. -/
def AsciinemaRecording.duration (r : AsciinemaRecording) : ℚ :=
  (r.events.getLast?.map (·.time)).getD 0

/-- The event-scanning loop of `AsciinemaRecording::get_frame_at`: append
data of events with `time ≤ timestamp`, stopping at the first event past the
timestamp (the loop `break`s there). -/
def frameScanAux : List CastEvent → ℚ → String
  | [], _ => ""
  | e :: rest, timestamp =>
    if e.time ≤ timestamp then e.data ++ frameScanAux rest timestamp else ""

/-- `AsciinemaRecording::get_frame_at` (`asciinema.rs`). -/
def AsciinemaRecording.get_frame_at (r : AsciinemaRecording) (timestamp : ℚ) :
    String :=
  frameScanAux r.events timestamp

/-- Frame extraction as the spec's words state it: the concatenation, in file
order, of the payload of every retained event whose timestamp is at most the
query timestamp. -/
def specFrameAt (r : AsciinemaRecording) (timestamp : ℚ) : String :=
  ((r.events.filter fun e => e.time ≤ timestamp).map (·.data)).foldr
    (· ++ ·) ""

/-- C4: a cast whose header line parses as JSON but carries `version ≠ 2`
(e.g. version 1) makes `from_cast` return the `InvalidFormat` error and no
recording; and whenever `from_cast` succeeds, an absent `width` defaults to
80 and an absent `height` defaults to 24. -/
theorem cast_version_check_and_defaults :
    (∀ (j : Json) (rest : List RawLine) (hd : CastHeader),
      decodeHeader j = some hd → hd.version ≠ 2 →
      AsciinemaRecording.from_cast (RawLine.json j :: rest)
        = Except.error AsciinemaError.invalidFormat) ∧
    (∀ (j : Json) (rest : List RawLine) (hd : CastHeader)
        (r : AsciinemaRecording),
      decodeHeader j = some hd →
      AsciinemaRecording.from_cast (RawLine.json j :: rest) = Except.ok r →
      (hd.width = none → r.width = 80) ∧
      (hd.height = none → r.height = 24)) := by
  constructor
  · intro j rest hd hdec hv
    simp [AsciinemaRecording.from_cast, hdec, hv]
  · intro j rest hd r hdec hok
    by_cases hv : hd.version = 2
    · simp only [AsciinemaRecording.from_cast, hdec, hv, ne_eq, not_true_eq_false,
        if_false] at hok
      cases hpe : parseEvents rest with
      | none => rw [hpe] at hok; simp at hok
      | some evs =>
        rw [hpe] at hok
        simp only [Except.ok.injEq] at hok
        subst hok
        constructor
        · intro hw; simp [hw]
        · intro hh; simp [hh]
    · simp [AsciinemaRecording.from_cast, hdec, hv] at hok

/-- Witness for C4: a version-1 header is rejected; a version-2 header with
no width and no height yields a recording with width 80 and height 24. -/
theorem cast_version_check_and_defaults_witness :
    AsciinemaRecording.from_cast [RawLine.json (.obj [("version", .num 1)])]
      = Except.error AsciinemaError.invalidFormat ∧
    ({ events := [], width := 80, height := 24 } :
        AsciinemaRecording).width = 80 ∧
    ({ events := [], width := 80, height := 24 } :
        AsciinemaRecording).height = 24 := by
  refine ⟨?_, ?_, ?_⟩
  · exact cast_version_check_and_defaults.1 (.obj [("version", .num 1)]) []
      { version := 1, width := none, height := none, timestamp := none }
      (by rfl) (by decide)
  · exact (cast_version_check_and_defaults.2 (.obj [("version", .num 2)]) []
      { version := 2, width := none, height := none, timestamp := none }
      { events := [], width := 80, height := 24 } (by rfl) (by rfl)).1 rfl
  · exact (cast_version_check_and_defaults.2 (.obj [("version", .num 2)]) []
      { version := 2, width := none, height := none, timestamp := none }
      { events := [], width := 80, height := 24 } (by rfl) (by rfl)).2 rfl

/-- C5 counterexample: a recording parsed from a valid version-2 cast whose
events are out of order. `get_frame_at` stops scanning at the first event
past the query (`break` in the loop), so at `t = 1` it returns `""` while
the claimed concatenation of every retained event with `timestamp ≤ 1`
is `"b"`. -/
theorem get_frame_at_misses_out_of_order_events :
    AsciinemaRecording.from_cast
      [RawLine.json (.obj [("version", .num 2)]),
       RawLine.json (.arr [.num 5, .str "o", .str "a"]),
       RawLine.json (.arr [.num 1, .str "o", .str "b"])]
      = Except.ok { events := [{ time := 5, event_type := "o", data := "a" },
                               { time := 1, event_type := "o", data := "b" }],
                    width := 80, height := 24 } ∧
    AsciinemaRecording.get_frame_at
      { events := [{ time := 5, event_type := "o", data := "a" },
                   { time := 1, event_type := "o", data := "b" }],
        width := 80, height := 24 } 1 = "" ∧
    specFrameAt
      { events := [{ time := 5, event_type := "o", data := "a" },
                   { time := 1, event_type := "o", data := "b" }],
        width := 80, height := 24 } 1 = "b" ∧
    ("" : String) ≠ "b" := by
  exact ⟨rfl, rfl, rfl, by decide⟩

lemma frameScanAux_eq_filter (t : ℚ) :
    ∀ evs : List CastEvent,
      List.Pairwise (fun a b => a.time ≤ b.time) evs →
      frameScanAux evs t
        = ((evs.filter fun e => e.time ≤ t).map (·.data)).foldr (· ++ ·) ""
  | [], _ => by simp [frameScanAux]
  | e :: evs, hpw => by
    by_cases he : e.time ≤ t
    · rw [frameScanAux, if_pos he,
        frameScanAux_eq_filter t evs (List.pairwise_cons.mp hpw).2]
      simp [he]
    · rw [frameScanAux, if_neg he]
      have hnil : evs.filter (fun e => decide (e.time ≤ t)) = [] := by
        rw [List.filter_eq_nil_iff]
        intro a ha
        simp only [decide_eq_true_eq]
        intro hat
        exact he (le_trans ((List.pairwise_cons.mp hpw).1 a ha) hat)
      simp [he, hnil]

/-- C5 (amended): for recordings whose retained events have nondecreasing
timestamps — which the parser assumes but does not enforce — `get_frame_at`
returns exactly the concatenation, in file order, of the payload of every
retained event with `timestamp ≤ query`. For out-of-order events the scan
stops at the first event past the query instead. -/
theorem get_frame_at_eq_concat_of_monotone (r : AsciinemaRecording)
    (hmono : List.Pairwise (fun a b => a.time ≤ b.time) r.events) (t : ℚ) :
    r.get_frame_at t = specFrameAt r t :=
  frameScanAux_eq_filter t r.events hmono

/-- Witness for C5's amended theorem: the spec's own round-trip example,
queried at `t = 1/2`. -/
theorem get_frame_at_eq_concat_of_monotone_witness :
    AsciinemaRecording.get_frame_at
      { events := [{ time := 0, event_type := "o", data := "Hello" },
                   { time := 1, event_type := "o", data := " World" }],
        width := 80, height := 24 } (1 / 2)
      = specFrameAt
          { events := [{ time := 0, event_type := "o", data := "Hello" },
                       { time := 1, event_type := "o", data := " World" }],
            width := 80, height := 24 } (1 / 2) := by
  exact get_frame_at_eq_concat_of_monotone _ (by
    refine List.pairwise_cons.mpr ⟨?_, List.pairwise_singleton _ _⟩
    intro a ha
    simp only [List.mem_singleton] at ha
    subst ha
    norm_num) (1 / 2)

/-- Wrapping 64-bit `usize` subtraction: `a - b` wraps around `2^64` when
`b > a` (release-mode Rust semantics); operands stay below `2^64`. -/
def usizeSub (a b : ℕ) : ℕ := if b ≤ a then a - b else a + 2 ^ 64 - b

/-- The VTE performer that builds the replay screen buffer (`TerminalScreen`
in `asciinema.rs`): a list of variable-length character lines, the cursor
`(row, col)`, and the terminal dimensions. -/
structure TerminalScreen where
  lines : List (List Char)
  cursor : ℕ × ℕ
  width : ℕ
  height : ℕ
deriving DecidableEq, Repr

/-- `TerminalScreen::new`: `height` empty lines, cursor at the origin. -/
def TerminalScreen.new (width height : ℕ) : TerminalScreen :=
  { lines := List.replicate height [], cursor := (0, 0),
    width := width, height := height }

/-- Rust `String::len` of a line: its UTF-8 byte length. -/
def lineByteLen (l : List Char) : ℕ := (l.map Char.utf8Size).sum

/-- `TerminalScreen::put_char`: out-of-screen rows are ignored; otherwise
the cursor's line is padded with spaces while its byte length is at most the
column, the character at the column is overwritten if one exists, and the
cursor advances one column, clamped at the right edge. -/
def TerminalScreen.put_char (scr : TerminalScreen) (c : Char) :
    TerminalScreen :=
  let row := scr.cursor.1
  let col := scr.cursor.2
  if scr.height ≤ row then scr
  else
    let line := scr.lines.getD row []
    let padded := line ++ List.replicate (col + 1 - lineByteLen line) ' '
    let written :=
      if col < padded.length then padded.take col ++ c :: padded.drop (col + 1)
      else padded
    { scr with lines := scr.lines.set row written,
               cursor := (row, min (col + 1) (usizeSub scr.width 1)) }

/-- `Perform::execute` for `TerminalScreen`: line feed moves the cursor down
clamped at the bottom, carriage return resets the column, backspace moves
one column left clamped at 0; every other control byte is ignored. -/
def TerminalScreen.execute (scr : TerminalScreen) (b : ℕ) : TerminalScreen :=
  if b = 10 then
    { scr with
      cursor := (min (scr.cursor.1 + 1) (usizeSub scr.height 1),
                 scr.cursor.2) }
  else if b = 13 then { scr with cursor := (scr.cursor.1, 0) }
  else if b = 8 then
    if 0 < scr.cursor.2 then
      { scr with cursor := (scr.cursor.1, scr.cursor.2 - 1) }
    else scr
  else scr

/-- One event dispatched by the external `vte` parser while scanning the
byte stream: a printable character (`Perform::print`) or a C0 control byte
(`Perform::execute`). The remaining `Perform` callbacks (CSI/OSC/ESC hooks)
are no-ops on the screen, so they do not appear in the event stream. -/
inductive VteEvent where
  | print (c : Char)
  | ctrl (b : ℕ)
deriving DecidableEq, Repr

/-- Dispatch of one parser event onto the screen. -/
def TerminalScreen.step (scr : TerminalScreen) : VteEvent → TerminalScreen
  | .print c => scr.put_char c
  | .ctrl b => scr.execute b

/-- Processing a whole event stream from a given screen. -/
def TerminalScreen.run (scr : TerminalScreen) (evs : List VteEvent) :
    TerminalScreen :=
  evs.foldl TerminalScreen.step scr

/-- The claimed cursor invariant: row within `[0, height)` and column within
`[0, width)` (the lower bounds hold by the `ℕ` representation). -/
def cursorInBounds (scr : TerminalScreen) : Prop :=
  scr.cursor.1 < scr.height ∧ scr.cursor.2 < scr.width

instance : DecidablePred cursorInBounds := fun _scr =>
  inferInstanceAs (Decidable (_ ∧ _))

lemma put_char_dims (scr : TerminalScreen) (c : Char) :
    (scr.put_char c).width = scr.width ∧
    (scr.put_char c).height = scr.height := by
  rw [TerminalScreen.put_char]
  split <;> simp

lemma execute_dims (scr : TerminalScreen) (b : ℕ) :
    (scr.execute b).width = scr.width ∧
    (scr.execute b).height = scr.height := by
  rw [TerminalScreen.execute]
  split
  · simp
  · split
    · simp
    · split
      · split <;> simp
      · simp

lemma step_preserves_bounds {scr : TerminalScreen}
    (hw : 1 ≤ scr.width) (hh : 1 ≤ scr.height)
    (hb : cursorInBounds scr) (e : VteEvent) :
    cursorInBounds (scr.step e) := by
  obtain ⟨hrow, hcol⟩ := hb
  cases e with
  | print c =>
    rw [TerminalScreen.step, TerminalScreen.put_char]
    split
    · exact ⟨hrow, hcol⟩
    · refine ⟨hrow, ?_⟩
      have hsub : usizeSub scr.width 1 = scr.width - 1 := by
        rw [usizeSub, if_pos hw]
      simp only [hsub]
      exact lt_of_le_of_lt (min_le_right _ _) (by omega)
  | ctrl b =>
    rw [TerminalScreen.step, TerminalScreen.execute]
    have hsub : usizeSub scr.height 1 = scr.height - 1 := by
      rw [usizeSub, if_pos hh]
    split
    · refine ⟨?_, ?_⟩ <;> simp only [cursorInBounds, hsub] <;> omega
    · split
      · refine ⟨?_, ?_⟩ <;> simp only [cursorInBounds] <;> omega
      · split
        · split
          · refine ⟨?_, ?_⟩ <;> simp only [cursorInBounds] <;> omega
          · exact ⟨hrow, hcol⟩
        · exact ⟨hrow, hcol⟩

lemma run_preserves_bounds {scr : TerminalScreen}
    (hw : 1 ≤ scr.width) (hh : 1 ≤ scr.height)
    (hb : cursorInBounds scr) :
    ∀ evs : List VteEvent, cursorInBounds (scr.run evs) := by
  intro evs
  induction evs generalizing scr with
  | nil => exact hb
  | cons e evs ih =>
    rw [TerminalScreen.run, List.foldl_cons]
    refine ih ?_ ?_ (step_preserves_bounds hw hh hb e)
    · cases e with
      | print c => rw [TerminalScreen.step, (put_char_dims scr c).1]; exact hw
      | ctrl b => rw [TerminalScreen.step, (execute_dims scr b).1]; exact hw
    · cases e with
      | print c => rw [TerminalScreen.step, (put_char_dims scr c).2]; exact hh
      | ctrl b => rw [TerminalScreen.step, (execute_dims scr b).2]; exact hh

/-- C6 (amended): for every screen of positive width and height, processing
any parser-event stream from the empty screen keeps the cursor within
`[0, height) × [0, width)`. Positivity is required: a parseable header may
declare width or height 0, and then the initial cursor `(0, 0)` already
violates the bound. -/
theorem cursor_always_in_bounds (width height : ℕ)
    (hw : 1 ≤ width) (hh : 1 ≤ height) (evs : List VteEvent) :
    cursorInBounds ((TerminalScreen.new width height).run evs) := by
  refine run_preserves_bounds ?_ ?_ ?_ evs <;>
    simp [TerminalScreen.new, cursorInBounds] <;> omega

/-- Witness for C6's amended theorem: an 80×24 screen fed a print, line
feed, carriage return and backspace. -/
theorem cursor_always_in_bounds_witness :
    cursorInBounds ((TerminalScreen.new 80 24).run
      [.print 'H', .ctrl 10, .ctrl 13, .ctrl 8]) :=
  cursor_always_in_bounds 80 24 (by decide) (by decide)
    [.print 'H', .ctrl 10, .ctrl 13, .ctrl 8]

/-- C6 counterexample: the header `{"version":2,"width":0,"height":0}`
parses, producing a recording of width 0 and height 0; on the screen built
from those dimensions the initial cursor `(0, 0)` — reached by the empty
byte stream — already violates `col < width`. -/
theorem cursor_bounds_fail_at_zero_size :
    AsciinemaRecording.from_cast
      [RawLine.json (.obj [("version", .num 2), ("width", .num 0),
                           ("height", .num 0)])]
      = Except.ok { events := [], width := 0, height := 0 } ∧
    ¬ cursorInBounds ((TerminalScreen.new 0 0).run []) :=
  ⟨rfl, by decide⟩

/-- Shared context of a multi-line banner (`MultiBannerContext` in
`banner.rs`): currently selected index and total number of entries. Both
are `usize`; arithmetic wraps around `2^64`. -/
structure MultiBannerContext where
  current : ℕ
  total : ℕ
deriving DecidableEq, Repr

/-- `MultiBannerMutator::mutate_next`: fails at the last index, otherwise
increments the selection. The guard compares against `total - 1` computed on
`usize`. -/
def MultiBannerMutator.mutate_next (ctx : MultiBannerContext) :
    MultiBannerContext × Bool :=
  if usizeSub ctx.total 1 ≤ ctx.current then (ctx, false)
  else ({ ctx with current := ctx.current + 1 }, true)

/-- `MultiBannerMutator::mutate_previous`: fails at index 0, otherwise
decrements the selection. -/
def MultiBannerMutator.mutate_previous (ctx : MultiBannerContext) :
    MultiBannerContext × Bool :=
  if ctx.current = 0 then (ctx, false)
  else ({ ctx with current := ctx.current - 1 }, true)

/-- `MultiBannerMutator::reset_mutations`: jump to index 0. -/
def MultiBannerMutator.reset_mutations (ctx : MultiBannerContext) :
    MultiBannerContext :=
  { ctx with current := 0 }

/-- `MultiBannerMutator::apply_all_mutations`: jump to the last index,
`total - 1` computed on `usize`. -/
def MultiBannerMutator.apply_all_mutations (ctx : MultiBannerContext) :
    MultiBannerContext :=
  { ctx with current := usizeSub ctx.total 1 }

/-- C7: with at least one entry and the selection in range, `retreat` at
index 0 fails and stays at 0; `advance` at the last index fails and leaves
the index unchanged; `apply_all` jumps to `total - 1`; `reset` jumps to 0;
and `advance`/`retreat` anywhere else increment/decrement the index by one
and report success. -/
theorem orchestrator_navigation_bounds :
    (∀ ctx : MultiBannerContext, ctx.current = 0 →
      MultiBannerMutator.mutate_previous ctx = (ctx, false)) ∧
    (∀ ctx : MultiBannerContext, 1 ≤ ctx.total →
      ctx.current = ctx.total - 1 →
      MultiBannerMutator.mutate_next ctx = (ctx, false)) ∧
    (∀ ctx : MultiBannerContext, 1 ≤ ctx.total →
      (MultiBannerMutator.apply_all_mutations ctx).current = ctx.total - 1) ∧
    (∀ ctx : MultiBannerContext,
      (MultiBannerMutator.reset_mutations ctx).current = 0) ∧
    (∀ ctx : MultiBannerContext, 1 ≤ ctx.total →
      ctx.current < ctx.total - 1 →
      MultiBannerMutator.mutate_next ctx
        = ({ ctx with current := ctx.current + 1 }, true)) ∧
    (∀ ctx : MultiBannerContext, 0 < ctx.current →
      MultiBannerMutator.mutate_previous ctx
        = ({ ctx with current := ctx.current - 1 }, true)) := by
  refine ⟨?_, ?_, ?_, ?_, ?_, ?_⟩
  · intro ctx h
    rw [MultiBannerMutator.mutate_previous, if_pos h]
  · intro ctx htot h
    have hsub : usizeSub ctx.total 1 = ctx.total - 1 := by
      rw [usizeSub, if_pos htot]
    rw [MultiBannerMutator.mutate_next, hsub, if_pos (le_of_eq h.symm)]
  · intro ctx htot
    have hsub : usizeSub ctx.total 1 = ctx.total - 1 := by
      rw [usizeSub, if_pos htot]
    rw [MultiBannerMutator.apply_all_mutations, hsub]
  · intro ctx
    rw [MultiBannerMutator.reset_mutations]
  · intro ctx htot h
    have hsub : usizeSub ctx.total 1 = ctx.total - 1 := by
      rw [usizeSub, if_pos htot]
    rw [MultiBannerMutator.mutate_next, hsub, if_neg (by omega)]
  · intro ctx h
    rw [MultiBannerMutator.mutate_previous, if_neg (by omega)]

/-- Witness for C7 on a three-entry orchestrator. -/
theorem orchestrator_navigation_bounds_witness :
    MultiBannerMutator.mutate_previous ⟨0, 3⟩ = (⟨0, 3⟩, false) ∧
    MultiBannerMutator.mutate_next ⟨2, 3⟩ = (⟨2, 3⟩, false) ∧
    (MultiBannerMutator.apply_all_mutations ⟨0, 3⟩).current = 2 ∧
    (MultiBannerMutator.reset_mutations ⟨2, 3⟩).current = 0 ∧
    MultiBannerMutator.mutate_next ⟨1, 3⟩ = (⟨2, 3⟩, true) ∧
    MultiBannerMutator.mutate_previous ⟨1, 3⟩ = (⟨0, 3⟩, true) := by
  refine ⟨?_, ?_, ?_, ?_, ?_, ?_⟩
  · exact orchestrator_navigation_bounds.1 ⟨0, 3⟩ rfl
  · exact orchestrator_navigation_bounds.2.1 ⟨2, 3⟩ (by decide) rfl
  · exact orchestrator_navigation_bounds.2.2.1 ⟨0, 3⟩ (by decide)
  · exact orchestrator_navigation_bounds.2.2.2.1 ⟨2, 3⟩
  · exact orchestrator_navigation_bounds.2.2.2.2.1 ⟨1, 3⟩ (by decide) (by decide)
  · exact orchestrator_navigation_bounds.2.2.2.2.2 ⟨1, 3⟩ (by decide)

/-- C10: with `total ≥ 1` and `current < total`, each of the four mutation
operations performs no wrapping subtraction and re-establishes
`current < total`; and the precondition is genuinely required, because with
`total = 0` the `usize` expression `total - 1` wraps to `2^64 - 1`, which
`apply_all_mutations` then stores as the selection (and `mutate_next`
increments past `total`). -/
theorem orchestrator_mutations_safe :
    (∀ ctx : MultiBannerContext, 1 ≤ ctx.total → ctx.current < ctx.total →
      (MultiBannerMutator.mutate_next ctx).1.current < ctx.total ∧
      (MultiBannerMutator.mutate_previous ctx).1.current < ctx.total ∧
      (MultiBannerMutator.reset_mutations ctx).current < ctx.total ∧
      (MultiBannerMutator.apply_all_mutations ctx).current < ctx.total) ∧
    (MultiBannerMutator.apply_all_mutations ⟨0, 0⟩).current = 2 ^ 64 - 1 ∧
    (MultiBannerMutator.mutate_next ⟨0, 0⟩).1.current = 1 := by
  refine ⟨?_, by decide, by decide⟩
  intro ctx htot hcur
  have hsub : usizeSub ctx.total 1 = ctx.total - 1 := by
    rw [usizeSub, if_pos htot]
  refine ⟨?_, ?_, ?_, ?_⟩
  · rw [MultiBannerMutator.mutate_next, hsub]
    split
    · exact hcur
    · simp only []
      omega
  · rw [MultiBannerMutator.mutate_previous]
    split
    · exact hcur
    · simp only []
      omega
  · rw [MultiBannerMutator.reset_mutations]
    show (0 : ℕ) < ctx.total
    omega
  · rw [MultiBannerMutator.apply_all_mutations, hsub]
    show ctx.total - 1 < ctx.total
    omega

/-- Witness for C10 at a concrete in-range context. -/
theorem orchestrator_mutations_safe_witness :
    ((MultiBannerMutator.mutate_next ⟨1, 3⟩).1.current < 3 ∧
     (MultiBannerMutator.mutate_previous ⟨1, 3⟩).1.current < 3 ∧
     (MultiBannerMutator.reset_mutations ⟨1, 3⟩).current < 3 ∧
     (MultiBannerMutator.apply_all_mutations ⟨1, 3⟩).current < 3) :=
  orchestrator_mutations_safe.1 ⟨1, 3⟩ (by decide) (by decide)

/-- One entry of a `MultiBannerPollable` (`banner.rs`): a
`RainbowAnimationPollable` with its configuration and the run state of its
animation instance. -/
structure BannerPollableEntry where
  loop_animation : Bool
  duration : ℕ
  state : AnimationState
deriving DecidableEq, Repr

/-- `MultiBannerPollable` (`banner.rs`): one pollable per animation plus the
shared selection context. -/
structure MultiBannerPollable where
  pollables : List BannerPollableEntry
  context : MultiBannerContext
deriving DecidableEq, Repr

/-- `MultiBannerPollable::poll`: read the currently selected index; if a
pollable exists there, poll it (and only it); otherwise return `Unmodified`
without touching anything. -/
def MultiBannerPollable.poll (mp : MultiBannerPollable) (now : ℚ) :
    MultiBannerPollable × PollableState :=
  let current := mp.context.current
  match mp.pollables[current]? with
  | some entry =>
    let p := RainbowAnimationPollable.poll entry.loop_animation
      entry.duration entry.state now
    ({ mp with
       pollables := mp.pollables.set current { entry with state := p.1 } },
     p.2)
  | none => (mp, .unmodified)

/-- C8: a `poll` of the multi-banner pollable touches only the selected
entry: every other entry (its configuration and run state) is unchanged, the
selection context is unchanged, and an out-of-range selection returns
`Unmodified` leaving the whole structure untouched. -/
theorem multi_banner_polls_only_selected (mp : MultiBannerPollable) (now : ℚ) :
    (∀ j : ℕ, j ≠ mp.context.current →
      (mp.poll now).1.pollables[j]? = mp.pollables[j]?) ∧
    (mp.poll now).1.context = mp.context ∧
    (mp.pollables.length ≤ mp.context.current →
      mp.poll now = (mp, PollableState.unmodified)) := by
  rw [MultiBannerPollable.poll]
  cases h : mp.pollables[mp.context.current]? with
  | none =>
    refine ⟨fun j _ => rfl, rfl, fun _ => rfl⟩
  | some entry =>
    refine ⟨?_, rfl, ?_⟩
    · intro j hj
      exact List.getElem?_set_ne (by omega)
    · intro hlen
      exfalso
      have : mp.pollables[mp.context.current]? = none :=
        List.getElem?_eq_none hlen
      rw [this] at h
      exact Option.noConfusion h

/-- Witness for C8: a two-entry pollable selected at 0 leaves entry 1
untouched; a selection of 5 on the same entries is out of range and is a
no-op returning `Unmodified`. -/
theorem multi_banner_polls_only_selected_witness :
    (MultiBannerPollable.poll
        { pollables := [⟨false, 10, AnimationState.initial⟩,
                        ⟨true, 20, AnimationState.initial⟩],
          context := ⟨0, 2⟩ } 5).1.pollables[1]?
      = some ⟨true, 20, AnimationState.initial⟩ ∧
    MultiBannerPollable.poll
        { pollables := [⟨false, 10, AnimationState.initial⟩,
                        ⟨true, 20, AnimationState.initial⟩],
          context := ⟨5, 2⟩ } 5
      = ({ pollables := [⟨false, 10, AnimationState.initial⟩,
                         ⟨true, 20, AnimationState.initial⟩],
           context := ⟨5, 2⟩ }, PollableState.unmodified) := by
  constructor
  · rw [(multi_banner_polls_only_selected
      { pollables := [⟨false, 10, AnimationState.initial⟩,
                      ⟨true, 20, AnimationState.initial⟩],
        context := ⟨0, 2⟩ } 5).1 1 (by decide)]
    rfl
  · exact (multi_banner_polls_only_selected
      { pollables := [⟨false, 10, AnimationState.initial⟩,
                      ⟨true, 20, AnimationState.initial⟩],
        context := ⟨5, 2⟩ } 5).2.2 (by decide)

/-- Abstract interpretation of the `f32` primitives the animation math uses.
`sin`, `cos`, `atan2`, `sqrt` and `pi` are the float intrinsics and
`std::f32::consts::PI`, left abstract so that every theorem below holds for
every interpretation of them; rational arithmetic models the remaining float
operations exactly. `get_glitched_char` is modelled from the spec: it stands
for `glitch_chars::get_glitched_char` (module `glitch_chars` is declared in
`animations/mod.rs` but its source file is absent) — a deterministic,
seed-driven optional substitution of a character by a visually similar one. -/
structure AnimOps where
  sin : ℚ → ℚ
  cos : ℚ → ℚ
  atan2 : ℚ → ℚ → ℚ
  sqrt : ℚ → ℚ
  pi : ℚ
  get_glitched_char : Char → ℚ → Option Char

/-- Rust float truncation toward zero (`f32::trunc`). -/
def qtrunc (q : ℚ) : ℤ := if 0 ≤ q then ⌊q⌋ else ⌈q⌉

/-- Rust `f32::fract`: `self - self.trunc()`, keeping the sign of `self`. -/
def qfract (q : ℚ) : ℚ := q - (qtrunc q : ℚ)

/-- Rust float remainder `a % b` (sign of the dividend). -/
def frem (a b : ℚ) : ℚ := a - b * (qtrunc (a / b) : ℚ)

/-- Rust `f32::clamp(lo, hi)`. -/
def fclamp (x lo hi : ℚ) : ℚ := min (max x lo) hi

/-- Rust `f32 as usize` after `.floor()` (saturating at 0 from below). -/
def floorToUsize (q : ℚ) : ℕ := (⌊q⌋).toNat

/-- Rust `f32 as i32` (truncation toward zero). -/
def castI32 (q : ℚ) : ℤ := qtrunc q

/-- Rust `f32 as u8` (truncation, saturating into `[0, 255]`). -/
def castU8 (q : ℚ) : ℕ := min (qtrunc q).toNat 255

/-- Rust `f32::to_radians`: `self * (PI / 180.0)`. -/
def toRadians (ops : AnimOps) (x : ℚ) : ℚ := x * (ops.pi / 180)

/-- An RGB color (`Color::new` in `markdown/text_style.rs`, outside the
provided sources; only the three channel payloads matter here). -/
structure Color where
  r : ℕ
  g : ℕ
  b : ℕ
deriving DecidableEq, Repr

/-- `hsl_to_rgb` from `animations/common.rs`: hue 0–360, saturation and
lightness 0–100, converted through the standard chroma construction; the
final channels are `f32 as u8` casts. -/
def hsl_to_rgb (h s l : ℚ) : Color :=
  let s := s / 100
  let l := l / 100
  let c := (1 - |2 * l - 1|) * s
  let x := c * (1 - |frem (h / 60) 2 - 1|)
  let m := l - c / 2
  let rgb : ℚ × ℚ × ℚ :=
    if h < 60 then (c, x, 0)
    else if h < 120 then (x, c, 0)
    else if h < 180 then (0, c, x)
    else if h < 240 then (0, x, c)
    else if h < 300 then (x, 0, c)
    else (c, 0, x)
  { r := castU8 ((rgb.1 + m) * 255), g := castU8 ((rgb.2.1 + m) * 255),
    b := castU8 ((rgb.2.2 + m) * 255) }

/-- Per-cell animation context (`AnimationContext` in
`animations/common.rs`). -/
structure AnimationContext where
  hue_offset : ℚ
  char_index : ℕ
  total_chars : ℕ
  row_index : ℕ
  total_rows : ℕ
  col_index : ℕ
  total_cols : ℕ
  ch : Char
deriving DecidableEq, Repr

/-- Per-cell animation result (`CharAnimationResult` in
`animations/common.rs`). -/
structure CharAnimationResult where
  color : Color
  bg_color : Option Color
  replacement_char : Option Char
deriving DecidableEq, Repr

/-- `CharAnimationResult::with_color`. -/
def CharAnimationResult.with_color (color : Color) : CharAnimationResult :=
  { color := color, bg_color := none, replacement_char := none }

/-- `CharAnimationResult::with_bg`. -/
def CharAnimationResult.with_bg (color bg : Color) : CharAnimationResult :=
  { color := color, bg_color := some bg, replacement_char := none }

/-- `CharAnimationResult::with_replacement`. -/
def CharAnimationResult.with_replacement (color : Color) (c : Char) :
    CharAnimationResult :=
  { color := color, bg_color := none, replacement_char := some c }

/-- The source's two-way return on an optional replacement (`if let
Some(ch) = replacement { with_replacement } else { with_color }`). -/
def packReplacement (color : Color) : Option Char → CharAnimationResult
  | some c => CharAnimationResult.with_replacement color c
  | none => CharAnimationResult.with_color color

/-- The 17 banner animation styles (`BannerAnimationStyle` in `snippet.rs`,
outside the provided sources; the variant set is fixed by the exhaustive,
wildcard-free match in `animations/mod.rs::get_animation`). -/
inductive BannerAnimationStyle where
  | rainbow | flash | wave | iris | plasma | scanner | matrix | neon
  | kaleidoscope | sepia | prism | glitch | breathe | fire | aurora | crt
  | typewriter
deriving DecidableEq, Repr

/-- The Matrix digital-rain character table
(`animations/matrix_chars.rs::MATRIX_CHARS`). -/
def MATRIX_CHARS : List Char :=
  ['ｦ', 'ｱ', 'ｲ', 'ｳ', 'ｴ', 'ｵ', 'ｶ', 'ｷ', 'ｸ', 'ｹ', 'ｺ', 'ｻ', 'ｼ', 'ｽ',
   'ｾ', 'ｿ', 'ﾀ', 'ﾁ', 'ﾂ', 'ﾃ', 'ﾄ', 'ﾅ', 'ﾆ', 'ﾇ', 'ﾈ', 'ﾉ', 'ﾊ', 'ﾋ',
   'ﾌ', 'ﾍ', 'ﾎ', 'ﾏ', 'ﾐ', 'ﾑ', 'ﾒ', 'ﾓ', 'ﾔ', 'ﾕ', 'ﾖ', 'ﾗ', 'ﾘ', 'ﾙ',
   'ﾚ', 'ﾛ', 'ﾜ', 'ﾝ',
   '0', '1', '2', '3', '4', '5', '6', '7', '8', '9',
   'Z', 'Ǝ', 'Ɔ', 'T', 'Ǝ', 'X', 'Ɔ',
   ':', '.', '=', '*', '+', '-', '<', '>', '¦', '|', '¬']

/-- `animations/matrix_chars.rs::get_char`: pseudo-random pick from
`MATRIX_CHARS` by seed. -/
def matrix_get_char (seed : ℚ) : Char :=
  let index :=
    (floorToUsize (|qfract seed| * (MATRIX_CHARS.length : ℚ)))
      % MATRIX_CHARS.length
  MATRIX_CHARS.getD index ' '

/-- `animations/rainbow.rs::Rainbow::render_char`. -/
def Rainbow.render_char (_ops : AnimOps) (ctx : AnimationContext) :
    CharAnimationResult :=
  let base_hue := ((ctx.char_index : ℚ) / (ctx.total_chars : ℚ)) * 360
  let hue := frem (base_hue + ctx.hue_offset) 360
  CharAnimationResult.with_color (hsl_to_rgb hue 100 50)

/-- `animations/flash.rs::Flash::render_char`. -/
def Flash.render_char (_ops : AnimOps) (ctx : AnimationContext) :
    CharAnimationResult :=
  let hue := frem ctx.hue_offset 360
  CharAnimationResult.with_color (hsl_to_rgb hue 100 50)

/-- `animations/wave.rs::Wave::render_char`. -/
def Wave.render_char (ops : AnimOps) (ctx : AnimationContext) :
    CharAnimationResult :=
  let base : ℚ := 200
  let amplitude : ℚ := 60
  let freq : ℚ := 0.35
  let phase := toRadians ops ctx.hue_offset
  let hue := base + amplitude * ops.sin ((ctx.char_index : ℚ) * freq + phase)
  CharAnimationResult.with_color
    (hsl_to_rgb (frem (frem hue 360 + 360) 360) 100 50)

/-- `animations/iris.rs::Iris::render_char`. -/
def Iris.render_char (_ops : AnimOps) (ctx : AnimationContext) :
    CharAnimationResult :=
  let center := (ctx.total_chars : ℚ) / 2
  let pos := (ctx.char_index : ℚ)
  let radius := (ctx.hue_offset / 360) * max center 1
  let dist := |pos - center|
  let l : ℚ := if dist ≤ radius then 60 else 35
  let hue := (pos / (ctx.total_chars : ℚ)) * 360
  CharAnimationResult.with_color (hsl_to_rgb (frem hue 360) 100 l)

/-- `animations/plasma.rs::Plasma::render_char`. -/
def Plasma.render_char (ops : AnimOps) (ctx : AnimationContext) :
    CharAnimationResult :=
  let pos := (ctx.char_index : ℚ)
  let time := ctx.hue_offset
  let wave1 := ops.sin (pos * 0.1 + time * 0.02)
  let wave2 := ops.sin (pos * 0.13 + time * 0.03)
  let wave3 := ops.cos (pos * 0.08 + time * 0.025)
  let hue := ((wave1 + wave2 + wave3) / 3 + 1) * 180
  CharAnimationResult.with_color (hsl_to_rgb (frem hue 360) 100 50)

/-- `animations/scanner.rs::Scanner::render_char`. -/
def Scanner.render_char (_ops : AnimOps) (ctx : AnimationContext) :
    CharAnimationResult :=
  let scan_pos := (ctx.hue_offset / 360) * (ctx.total_chars : ℚ)
  let dist := |(ctx.char_index : ℚ) - scan_pos|
  let lightness := max (70 - dist * 8) 30
  CharAnimationResult.with_color (hsl_to_rgb 0 100 lightness)

/-- `animations/neon.rs`: the four-hue neon palette. -/
def neonPalette : List ℚ := [330, 195, 85, 280]

/-- `animations/neon.rs::Neon::render_char`. -/
def Neon.render_char (ops : AnimOps) (ctx : AnimationContext) :
    CharAnimationResult :=
  let palette_len : ℚ := (neonPalette.length : ℚ)
  let cycle_position :=
    frem (ctx.hue_offset + (ctx.char_index : ℚ) * 5) (palette_len * 90)
  let palette_index :=
    floorToUsize (cycle_position / 90) % neonPalette.length
  let next_index := (palette_index + 1) % neonPalette.length
  let t := frem cycle_position 90 / 90
  let hue := neonPalette.getD palette_index 0 * (1 - t)
    + neonPalette.getD next_index 0 * t
  let base_lightness : ℚ := 60
  let pulse := ops.sin (ctx.hue_offset * 0.1) * 5
  let lightness := base_lightness + pulse
  CharAnimationResult.with_color (hsl_to_rgb (frem hue 360) 100 lightness)

/-- `animations/matrix.rs::Matrix::render_char`. -/
def Matrix.render_char (ops : AnimOps) (ctx : AnimationContext) :
    CharAnimationResult :=
  let hue : ℚ := 120
  let char_seed :=
    ops.sin ((ctx.char_index : ℚ) * 7.919 + (ctx.row_index : ℚ) * 3.141) * 100
  let char_variation := qfract char_seed
  let time_offset := ctx.hue_offset / 8
  let cascade_pos := (ctx.row_index : ℚ) - time_offset
  let animation_complete : Prop := (ctx.total_rows : ℚ) + 3 < time_offset
  let cascade_has_passed : Prop := (ctx.row_index : ℚ) < time_offset
  let distance_from_front := |cascade_pos|
  let sl : ℚ × ℚ :=
    if animation_complete then (90, 55)
    else if distance_from_front < 1 ∧ ¬ cascade_has_passed then
      (40 + char_variation * 20, 75 + char_variation * 15)
    else if distance_from_front < 3 ∧ ¬ cascade_has_passed then
      (80 + char_variation * 20, 55 + char_variation * 15)
    else if cascade_has_passed then (90, 50 + char_variation * 10)
    else (70, 15 + char_variation * 10)
  let replacement : Option Char :=
    if animation_complete then none
    else if cascade_has_passed then
      let glitch_chance := ops.sin (char_seed * 37.1 + ctx.hue_offset * 0.03)
      if 0.95 < glitch_chance then
        some (matrix_get_char (char_seed + ctx.hue_offset * 10))
      else none
    else some (matrix_get_char (char_seed + ctx.hue_offset * 0.5))
  let color := hsl_to_rgb hue sl.1 sl.2
  packReplacement color replacement

/-- `animations/sepia.rs::Sepia::render_char`. -/
def Sepia.render_char (ops : AnimOps) (ctx : AnimationContext) :
    CharAnimationResult :=
  let hue : ℚ := 30
  let saturation : ℚ := 45
  let lightness :=
    35 + 15 * ops.sin ((ctx.char_index : ℚ) * 0.15 + ctx.hue_offset * 0.05)
  CharAnimationResult.with_color (hsl_to_rgb hue saturation lightness)

/-- `animations/fire.rs::Fire::render_char`. -/
def Fire.render_char (ops : AnimOps) (ctx : AnimationContext) :
    CharAnimationResult :=
  let vertical_pos := (ctx.row_index : ℚ) / (ctx.total_rows : ℚ)
  let base_hue := vertical_pos * 60
  let flicker :=
    ops.sin (ctx.hue_offset * 0.1 + (ctx.char_index : ℚ) * 0.3) * 10
  let hue := min (max (base_hue + flicker) 0) 60
  let saturation : ℚ := 100
  let base_lightness : ℚ := 55
  let lightness_flicker :=
    ops.sin (ctx.hue_offset * 0.15 + (ctx.char_index : ℚ) * 0.2
      + (ctx.row_index : ℚ) * 0.4) * 10
  let lightness := min (max (base_lightness + lightness_flicker) 45) 65
  CharAnimationResult.with_color (hsl_to_rgb hue saturation lightness)

/-- `animations/breathe.rs::Breathe::render_char`. -/
def Breathe.render_char (ops : AnimOps) (ctx : AnimationContext) :
    CharAnimationResult :=
  let hue := ((ctx.char_index : ℚ) / (ctx.total_chars : ℚ)) * 360
  let saturation : ℚ := 65
  let lightness := 35 + 20 * ops.sin (ctx.hue_offset * 0.05)
  CharAnimationResult.with_color (hsl_to_rgb (frem hue 360) saturation lightness)

/-- `animations/prism.rs::Prism::render_char`. -/
def Prism.render_char (_ops : AnimOps) (ctx : AnimationContext) :
    CharAnimationResult :=
  let beam_width := (ctx.total_chars : ℚ) / 3
  let shifted_pos := (ctx.char_index : ℚ) + ctx.hue_offset * 1.5
  let beam_pos := frem shifted_pos beam_width
  let hue := (beam_pos / beam_width) * 360
  let beam_center := beam_width / 2
  let dist_from_center := |beam_pos - beam_center|
  let lightness := 55 - (dist_from_center / beam_center) * 10
  CharAnimationResult.with_color (hsl_to_rgb (frem hue 360) 100 lightness)

/-- `animations/aurora.rs::Aurora::render_char`. -/
def Aurora.render_char (ops : AnimOps) (ctx : AnimationContext) :
    CharAnimationResult :=
  let t := ctx.hue_offset * 0.02
  let x := (ctx.col_index : ℚ)
  let y := (ctx.row_index : ℚ)
  let wave1 := ops.sin (x * 0.12 + t + y * 0.10)
  let wave2 := ops.cos (x * 0.07 - t * 0.8 + y * 0.18)
  let field := (wave1 + wave2) * 0.5
  let hue_min : ℚ := 120
  let hue_max : ℚ := 280
  let hue := hue_min + ((field + 1) * 0.5) * (hue_max - hue_min)
  let saturation := 70 + ops.sin (y * 0.15 + t * 0.8) * 15
  let base_lightness := 45 + |field| * 18
  let lightness := base_lightness + ops.sin (y * 0.25 + t) * 6
  CharAnimationResult.with_color
    (hsl_to_rgb (frem hue 360) (fclamp saturation 35 100)
      (fclamp lightness 30 80))

/-- `animations/crt.rs::Crt::render_char`. -/
def Crt.render_char (ops : AnimOps) (ctx : AnimationContext) :
    CharAnimationResult :=
  let t := ctx.hue_offset
  let y := (ctx.row_index : ℚ)
  let x := (ctx.col_index : ℚ)
  let base_hue := frem (180 + ops.sin (x * 0.5 + t * 0.2) * 20
    + ops.cos (y * 0.8 + t * 0.15) * 15) 360
  let triad := ctx.col_index % 3
  let hue :=
    if triad = 0 then frem (base_hue + 10) 360
    else if triad = 1 then frem (base_hue + 140) 360
    else frem (base_hue + 260) 360
  let scanline : ℚ := if ctx.row_index % 2 = 0 then -8 else 0
  let bar_pos := frem (t * 0.35) 360
  let bar_row := (bar_pos / 360) * (ctx.total_rows : ℚ)
  let dist := |y - bar_row|
  let bar_boost := (1 - min (dist / 2.5) 1) * 18
  let noise :=
    qfract (ops.sin (x * 12.9898 + y * 78.233 + t) * 43758.5453) * 4 - 2
  let saturation : ℚ := 75
  let lightness := 42 + scanline + bar_boost + noise
  CharAnimationResult.with_color
    (hsl_to_rgb hue saturation (fclamp lightness 25 80))

/-- `animations/glitch.rs::Glitch::render_char`. -/
def Glitch.render_char (ops : AnimOps) (ctx : AnimationContext) :
    CharAnimationResult :=
  let glitch_duration : ℚ := 300
  let animation_complete : Prop := glitch_duration < ctx.hue_offset
  if animation_complete then
    CharAnimationResult.with_color (hsl_to_rgb 120 60 55)
  else
    let glitch_seed :=
      ops.sin ((ctx.char_index : ℚ) * 12.9898 + ctx.hue_offset * 78.233)
        * 43758.5453
    let hue_choice := castI32 (qfract glitch_seed * 3)
    let hue : ℚ :=
      if hue_choice = 0 then 180
      else if hue_choice = 1 then 300
      else qfract glitch_seed * 360
    let lightness := 35 + qfract glitch_seed * 40
    let saturation := 85 + qfract (glitch_seed * 1.234) * 15
    let char_glitch_seed :=
      ops.sin ((ctx.char_index : ℚ) * 7.321 + ctx.hue_offset * 0.5)
        * 12345.6789
    let glitch_intensity := 1 - min (ctx.hue_offset / glitch_duration) 1
    let glitch_threshold := 0.65 - glitch_intensity * 0.3
    let should_glitch : Prop := glitch_threshold < qfract char_glitch_seed
    let color := hsl_to_rgb hue saturation lightness
    if should_glitch then
      packReplacement color (ops.get_glitched_char ctx.ch char_glitch_seed)
    else CharAnimationResult.with_color color

/-- `animations/kaleidoscope.rs::Kaleidoscope::render_char`. -/
def Kaleidoscope.render_char (ops : AnimOps) (ctx : AnimationContext) :
    CharAnimationResult :=
  let animation_duration : ℚ := 360
  let fadeout_start : ℚ := 320
  let animation_complete : Prop := animation_duration < ctx.hue_offset
  if animation_complete then
    let base_hue := ((ctx.char_index : ℚ) / (ctx.total_chars : ℚ)) * 360
    CharAnimationResult.with_color (hsl_to_rgb base_hue 85 75)
  else
    let fade_factor :=
      if ctx.hue_offset < fadeout_start then 1
      else 1 - ((ctx.hue_offset - fadeout_start)
        / (animation_duration - fadeout_start))
    let center_x := (ctx.total_chars : ℚ) / 2
    let center_y := (ctx.total_rows : ℚ) / 2
    let dist_x := |(ctx.char_index : ℚ) - center_x|
    let dist_y := |(ctx.row_index : ℚ) - center_y|
    let radial_dist := ops.sqrt (dist_x * dist_x + dist_y * dist_y)
      / max center_x 1
    let angle := ops.atan2 ((ctx.row_index : ℚ) - center_y)
      ((ctx.char_index : ℚ) - center_x) * 180 / ops.pi + 180
    let radial_wave := ops.sin (radial_dist * 6 - ctx.hue_offset * 0.12)
    let sector_count : ℚ := 6
    let sector_pattern :=
      ops.sin ((angle + ctx.hue_offset * 2) * sector_count / 180)
    let bg_complexity := radial_wave * 0.6 + sector_pattern * 0.4
    let bg_hue_base := frem (ctx.hue_offset * 2.5) 360
    let bg_hue := frem (bg_hue_base + bg_complexity * 120) 360
    let bg_saturation := fclamp (60 + |bg_complexity| * 20) 60 80
    let base_bg_lightness := 8 + radial_dist * 6
    let bg_lightness :=
      fclamp (base_bg_lightness + |bg_complexity| * 6) 8 20 * fade_factor
    let fg_pattern := ops.sin (radial_dist * 5 + ctx.hue_offset * 0.1) * 0.5
      + ops.cos (angle * 0.3 - ctx.hue_offset * 0.3) * 0.5
    let fgp : ℚ × ℚ :=
      if ctx.hue_offset < fadeout_start then
        let fg_hue_base := frem (bg_hue + 180) 360
        let fg_hue := frem (fg_hue_base + fg_pattern * 60) 360
        let fg_saturation := fclamp (88 + |fg_pattern| * 12) 88 100
        (fg_hue, fg_saturation)
      else
        let target_hue := ((ctx.char_index : ℚ) / (ctx.total_chars : ℚ)) * 360
        let current_fg_hue_base := frem (bg_hue + 180) 360
        let current_fg_hue := frem (current_fg_hue_base + fg_pattern * 60) 360
        let inverse_fade := 1 - fade_factor
        let fg_hue := current_fg_hue * fade_factor + target_hue * inverse_fade
        let fg_saturation := 100 * fade_factor + 85 * inverse_fade
        (fg_hue, fg_saturation)
    let base_fg_lightness := 75 + radial_dist * 8
    let pattern_boost := |fg_pattern| * 6
    let fg_lightness := fclamp (base_fg_lightness + pattern_boost) 75 92
    let sparkle : ℚ :=
      if 0.94 < |radial_wave + sector_pattern| then 6 * fade_factor else 0
    let final_fg_lightness := fclamp (fg_lightness + sparkle) 75 95
    let fg_color := hsl_to_rgb fgp.1 fgp.2 final_fg_lightness
    if 0.5 < bg_lightness then
      CharAnimationResult.with_bg fg_color
        (hsl_to_rgb bg_hue bg_saturation bg_lightness)
    else CharAnimationResult.with_color fg_color

/-- `animations/typewriter.rs::Typewriter::render_char`. -/
def Typewriter.render_char (_ops : AnimOps) (ctx : AnimationContext) :
    CharAnimationResult :=
  let typing_duration : ℚ := 320
  let settle_time : ℚ := 40
  let total_duration := typing_duration + settle_time
  if total_duration < ctx.hue_offset then
    CharAnimationResult.with_color (hsl_to_rgb 40 20 85)
  else
    let progress := fclamp (ctx.hue_offset / typing_duration) 0 1
    let reveal_count :=
      min (floorToUsize (progress * (ctx.total_chars : ℚ))) ctx.total_chars
    if ctx.char_index < reveal_count then
      CharAnimationResult.with_color (hsl_to_rgb 40 20 85)
    else if ctx.char_index = reveal_count ∧ reveal_count < ctx.total_chars then
      CharAnimationResult.with_replacement (hsl_to_rgb 200 85 65) '▌'
    else if ctx.total_chars ≤ reveal_count then
      CharAnimationResult.with_color (hsl_to_rgb 40 20 85)
    else
      CharAnimationResult.with_replacement (hsl_to_rgb 0 0 0) ' '

/-- `animations/mod.rs::get_animation`: the registry dispatching a style
identifier to its implementation. -/
def get_animation : BannerAnimationStyle → AnimOps → AnimationContext →
    CharAnimationResult
  | .rainbow => Rainbow.render_char
  | .flash => Flash.render_char
  | .wave => Wave.render_char
  | .iris => Iris.render_char
  | .plasma => Plasma.render_char
  | .scanner => Scanner.render_char
  | .matrix => Matrix.render_char
  | .neon => Neon.render_char
  | .kaleidoscope => Kaleidoscope.render_char
  | .sepia => Sepia.render_char
  | .prism => Prism.render_char
  | .glitch => Glitch.render_char
  | .breathe => Breathe.render_char
  | .fire => Fire.render_char
  | .aurora => Aurora.render_char
  | .crt => Crt.render_char
  | .typewriter => Typewriter.render_char

/-- Inline `Rainbow` arm of `RainbowBannerAnimation::render_with_offset`
(`banner.rs`). -/
def inline_rainbow (_ops : AnimOps) (ctx : AnimationContext) :
    CharAnimationResult :=
  let base_hue := ((ctx.char_index : ℚ) / (ctx.total_chars : ℚ)) * 360
  let hue := frem (base_hue + ctx.hue_offset) 360
  { color := hsl_to_rgb hue 100 50, bg_color := none,
    replacement_char := none }

/-- Inline `Flash` arm of `render_with_offset`. -/
def inline_flash (_ops : AnimOps) (ctx : AnimationContext) :
    CharAnimationResult :=
  let hue := frem ctx.hue_offset 360
  { color := hsl_to_rgb hue 100 50, bg_color := none,
    replacement_char := none }

/-- Inline `Wave` arm of `render_with_offset`. -/
def inline_wave (ops : AnimOps) (ctx : AnimationContext) :
    CharAnimationResult :=
  let base : ℚ := 200
  let amplitude : ℚ := 60
  let freq : ℚ := 0.35
  let phase := toRadians ops ctx.hue_offset
  let hue := base + amplitude * ops.sin ((ctx.char_index : ℚ) * freq + phase)
  { color := hsl_to_rgb (frem (frem hue 360 + 360) 360) 100 50,
    bg_color := none, replacement_char := none }

/-- Inline `Iris` arm of `render_with_offset`. -/
def inline_iris (_ops : AnimOps) (ctx : AnimationContext) :
    CharAnimationResult :=
  let center := (ctx.total_chars : ℚ) / 2
  let pos := (ctx.char_index : ℚ)
  let radius := (ctx.hue_offset / 360) * max center 1
  let dist := |pos - center|
  let l : ℚ := if dist ≤ radius then 60 else 35
  let hue := (pos / (ctx.total_chars : ℚ)) * 360
  { color := hsl_to_rgb (frem hue 360) 100 l, bg_color := none,
    replacement_char := none }

/-- Inline `Plasma` arm of `render_with_offset`. -/
def inline_plasma (ops : AnimOps) (ctx : AnimationContext) :
    CharAnimationResult :=
  let pos := (ctx.char_index : ℚ)
  let time := ctx.hue_offset
  let wave1 := ops.sin (pos * 0.1 + time * 0.02)
  let wave2 := ops.sin (pos * 0.13 + time * 0.03)
  let wave3 := ops.cos (pos * 0.08 + time * 0.025)
  let hue := ((wave1 + wave2 + wave3) / 3 + 1) * 180
  { color := hsl_to_rgb (frem hue 360) 100 50, bg_color := none,
    replacement_char := none }

/-- Inline `Scanner` arm of `render_with_offset`. -/
def inline_scanner (_ops : AnimOps) (ctx : AnimationContext) :
    CharAnimationResult :=
  let scan_pos := (ctx.hue_offset / 360) * (ctx.total_chars : ℚ)
  let dist := |(ctx.char_index : ℚ) - scan_pos|
  let lightness := max (70 - dist * 8) 30
  { color := hsl_to_rgb 0 100 lightness, bg_color := none,
    replacement_char := none }

/-- Inline `Neon` arm of `render_with_offset`. -/
def inline_neon (ops : AnimOps) (ctx : AnimationContext) :
    CharAnimationResult :=
  let palette_len : ℚ := (neonPalette.length : ℚ)
  let cycle_position :=
    frem (ctx.hue_offset + (ctx.char_index : ℚ) * 5) (palette_len * 90)
  let palette_index :=
    floorToUsize (cycle_position / 90) % neonPalette.length
  let next_index := (palette_index + 1) % neonPalette.length
  let t := frem cycle_position 90 / 90
  let hue := neonPalette.getD palette_index 0 * (1 - t)
    + neonPalette.getD next_index 0 * t
  let base_lightness : ℚ := 60
  let pulse := ops.sin (ctx.hue_offset * 0.1) * 5
  let lightness := base_lightness + pulse
  { color := hsl_to_rgb (frem hue 360) 100 lightness, bg_color := none,
    replacement_char := none }

/-- Inline `Matrix` arm of `render_with_offset` (the completion threshold is
written `total_rows + 3.0` there, i.e. the row total converted to `f32`). -/
def inline_matrix (ops : AnimOps) (ctx : AnimationContext) :
    CharAnimationResult :=
  let hue : ℚ := 120
  let char_seed :=
    ops.sin ((ctx.char_index : ℚ) * 7.919 + (ctx.row_index : ℚ) * 3.141) * 100
  let char_variation := qfract char_seed
  let time_offset := ctx.hue_offset / 8
  let cascade_pos := (ctx.row_index : ℚ) - time_offset
  let animation_complete : Prop := (ctx.total_rows : ℚ) + 3 < time_offset
  let cascade_has_passed : Prop := (ctx.row_index : ℚ) < time_offset
  let distance_from_front := |cascade_pos|
  let sl : ℚ × ℚ :=
    if animation_complete then (90, 55)
    else if distance_from_front < 1 ∧ ¬ cascade_has_passed then
      (40 + char_variation * 20, 75 + char_variation * 15)
    else if distance_from_front < 3 ∧ ¬ cascade_has_passed then
      (80 + char_variation * 20, 55 + char_variation * 15)
    else if cascade_has_passed then (90, 50 + char_variation * 10)
    else (70, 15 + char_variation * 10)
  let replacement : Option Char :=
    if animation_complete then none
    else if cascade_has_passed then
      let glitch_chance := ops.sin (char_seed * 37.1 + ctx.hue_offset * 0.03)
      if 0.95 < glitch_chance then
        some (matrix_get_char (char_seed + ctx.hue_offset * 10))
      else none
    else some (matrix_get_char (char_seed + ctx.hue_offset * 0.5))
  { color := hsl_to_rgb hue sl.1 sl.2, bg_color := none,
    replacement_char := replacement }

/-- Inline `Sepia` arm of `render_with_offset`. -/
def inline_sepia (ops : AnimOps) (ctx : AnimationContext) :
    CharAnimationResult :=
  let hue : ℚ := 30
  let saturation : ℚ := 45
  let lightness :=
    35 + 15 * ops.sin ((ctx.char_index : ℚ) * 0.15 + ctx.hue_offset * 0.05)
  { color := hsl_to_rgb hue saturation lightness, bg_color := none,
    replacement_char := none }

/-- Inline `Fire` arm of `render_with_offset`; unlike `fire.rs`, the divisor
is written `total_rows.max(1.0)` there, i.e. floored at one row. -/
def inline_fire (ops : AnimOps) (ctx : AnimationContext) :
    CharAnimationResult :=
  let vertical_pos := (ctx.row_index : ℚ) / max ((ctx.total_rows : ℚ)) 1
  let base_hue := vertical_pos * 60
  let flicker :=
    ops.sin (ctx.hue_offset * 0.1 + (ctx.char_index : ℚ) * 0.3) * 10
  let hue := min (max (base_hue + flicker) 0) 60
  let saturation : ℚ := 100
  let base_lightness : ℚ := 55
  let lightness_flicker :=
    ops.sin (ctx.hue_offset * 0.15 + (ctx.char_index : ℚ) * 0.2
      + (ctx.row_index : ℚ) * 0.4) * 10
  let lightness := min (max (base_lightness + lightness_flicker) 45) 65
  { color := hsl_to_rgb hue saturation lightness, bg_color := none,
    replacement_char := none }

/-- Inline `Breathe` arm of `render_with_offset`. -/
def inline_breathe (ops : AnimOps) (ctx : AnimationContext) :
    CharAnimationResult :=
  let hue := ((ctx.char_index : ℚ) / (ctx.total_chars : ℚ)) * 360
  let saturation : ℚ := 65
  let lightness := 35 + 20 * ops.sin (ctx.hue_offset * 0.05)
  { color := hsl_to_rgb (frem hue 360) saturation lightness,
    bg_color := none, replacement_char := none }

/-- Inline `Prism` arm of `render_with_offset`. -/
def inline_prism (_ops : AnimOps) (ctx : AnimationContext) :
    CharAnimationResult :=
  let beam_width := (ctx.total_chars : ℚ) / 3
  let shifted_pos := (ctx.char_index : ℚ) + ctx.hue_offset * 1.5
  let beam_pos := frem shifted_pos beam_width
  let hue := (beam_pos / beam_width) * 360
  let beam_center := beam_width / 2
  let dist_from_center := |beam_pos - beam_center|
  let lightness := 55 - (dist_from_center / beam_center) * 10
  { color := hsl_to_rgb (frem hue 360) 100 lightness, bg_color := none,
    replacement_char := none }

/-- Inline `Aurora` arm of `render_with_offset`. -/
def inline_aurora (ops : AnimOps) (ctx : AnimationContext) :
    CharAnimationResult :=
  let t := ctx.hue_offset * 0.02
  let x := (ctx.col_index : ℚ)
  let y := (ctx.row_index : ℚ)
  let wave1 := ops.sin (x * 0.12 + t + y * 0.10)
  let wave2 := ops.cos (x * 0.07 - t * 0.8 + y * 0.18)
  let field := (wave1 + wave2) * 0.5
  let hue_min : ℚ := 120
  let hue_max : ℚ := 280
  let hue := hue_min + ((field + 1) * 0.5) * (hue_max - hue_min)
  let saturation := 70 + ops.sin (y * 0.15 + t * 0.8) * 15
  let base_lightness := 45 + |field| * 18
  let lightness := base_lightness + ops.sin (y * 0.25 + t) * 6
  { color := hsl_to_rgb (frem hue 360) (fclamp saturation 35 100)
      (fclamp lightness 30 80),
    bg_color := none, replacement_char := none }

/-- Inline `Crt` arm of `render_with_offset`; unlike `crt.rs`, the rolling
bar maps onto `total_rows.max(1.0)` rows there. -/
def inline_crt (ops : AnimOps) (ctx : AnimationContext) :
    CharAnimationResult :=
  let t := ctx.hue_offset
  let y := (ctx.row_index : ℚ)
  let x := (ctx.col_index : ℚ)
  let base_hue := frem (180 + ops.sin (x * 0.5 + t * 0.2) * 20
    + ops.cos (y * 0.8 + t * 0.15) * 15) 360
  let triad := ctx.col_index % 3
  let hue :=
    if triad = 0 then frem (base_hue + 10) 360
    else if triad = 1 then frem (base_hue + 140) 360
    else frem (base_hue + 260) 360
  let scanline : ℚ := if ctx.row_index % 2 = 0 then -8 else 0
  let bar_pos := frem (t * 0.35) 360
  let bar_row := (bar_pos / 360) * max ((ctx.total_rows : ℚ)) 1
  let dist := |y - bar_row|
  let bar_boost := (1 - min (dist / 2.5) 1) * 18
  let noise :=
    qfract (ops.sin (x * 12.9898 + y * 78.233 + t) * 43758.5453) * 4 - 2
  let saturation : ℚ := 75
  let lightness := 42 + scanline + bar_boost + noise
  { color := hsl_to_rgb hue saturation (fclamp lightness 25 80),
    bg_color := none, replacement_char := none }

/-- Inline `Glitch` arm of `render_with_offset`. -/
def inline_glitch (ops : AnimOps) (ctx : AnimationContext) :
    CharAnimationResult :=
  let glitch_duration : ℚ := 300
  let animation_complete : Prop := glitch_duration < ctx.hue_offset
  if animation_complete then
    { color := hsl_to_rgb 120 60 55, bg_color := none,
      replacement_char := none }
  else
    let glitch_seed :=
      ops.sin ((ctx.char_index : ℚ) * 12.9898 + ctx.hue_offset * 78.233)
        * 43758.5453
    let hue_choice := castI32 (qfract glitch_seed * 3)
    let hue : ℚ :=
      if hue_choice = 0 then 180
      else if hue_choice = 1 then 300
      else qfract glitch_seed * 360
    let lightness := 35 + qfract glitch_seed * 40
    let saturation := 85 + qfract (glitch_seed * 1.234) * 15
    let char_glitch_seed :=
      ops.sin ((ctx.char_index : ℚ) * 7.321 + ctx.hue_offset * 0.5)
        * 12345.6789
    let glitch_intensity := 1 - min (ctx.hue_offset / glitch_duration) 1
    let glitch_threshold := 0.65 - glitch_intensity * 0.3
    let should_glitch : Prop := glitch_threshold < qfract char_glitch_seed
    let replacement : Option Char :=
      if should_glitch then ops.get_glitched_char ctx.ch char_glitch_seed
      else none
    { color := hsl_to_rgb hue saturation lightness, bg_color := none,
      replacement_char := replacement }

/-- Inline `Kaleidoscope` arm of `render_with_offset` (non-whitespace
cells). -/
def inline_kaleidoscope (ops : AnimOps) (ctx : AnimationContext) :
    CharAnimationResult :=
  let animation_duration : ℚ := 360
  let fadeout_start : ℚ := 320
  let animation_complete : Prop := animation_duration < ctx.hue_offset
  if animation_complete then
    let base_hue := ((ctx.char_index : ℚ) / (ctx.total_chars : ℚ)) * 360
    { color := hsl_to_rgb base_hue 85 75, bg_color := none,
      replacement_char := none }
  else
    let fade_factor :=
      if ctx.hue_offset < fadeout_start then 1
      else 1 - ((ctx.hue_offset - fadeout_start)
        / (animation_duration - fadeout_start))
    let center_x := (ctx.total_chars : ℚ) / 2
    let center_y := (ctx.total_rows : ℚ) / 2
    let dist_x := |(ctx.char_index : ℚ) - center_x|
    let dist_y := |(ctx.row_index : ℚ) - center_y|
    let radial_dist := ops.sqrt (dist_x * dist_x + dist_y * dist_y)
      / max center_x 1
    let angle := ops.atan2 ((ctx.row_index : ℚ) - center_y)
      ((ctx.char_index : ℚ) - center_x) * 180 / ops.pi + 180
    let radial_wave := ops.sin (radial_dist * 6 - ctx.hue_offset * 0.12)
    let sector_count : ℚ := 6
    let sector_pattern :=
      ops.sin ((angle + ctx.hue_offset * 2) * sector_count / 180)
    let bg_complexity := radial_wave * 0.6 + sector_pattern * 0.4
    let bg_hue_base := frem (ctx.hue_offset * 2.5) 360
    let bg_hue := frem (bg_hue_base + bg_complexity * 120) 360
    let bg_saturation := fclamp (60 + |bg_complexity| * 20) 60 80
    let base_bg_lightness := 8 + radial_dist * 6
    let bg_lightness :=
      fclamp (base_bg_lightness + |bg_complexity| * 6) 8 20 * fade_factor
    let fg_pattern := ops.sin (radial_dist * 5 + ctx.hue_offset * 0.1) * 0.5
      + ops.cos (angle * 0.3 - ctx.hue_offset * 0.3) * 0.5
    let fgp : ℚ × ℚ :=
      if ctx.hue_offset < fadeout_start then
        let fg_hue_base := frem (bg_hue + 180) 360
        let fg_hue := frem (fg_hue_base + fg_pattern * 60) 360
        let fg_saturation := fclamp (88 + |fg_pattern| * 12) 88 100
        (fg_hue, fg_saturation)
      else
        let target_hue := ((ctx.char_index : ℚ) / (ctx.total_chars : ℚ)) * 360
        let current_fg_hue_base := frem (bg_hue + 180) 360
        let current_fg_hue := frem (current_fg_hue_base + fg_pattern * 60) 360
        let inverse_fade := 1 - fade_factor
        let fg_hue := current_fg_hue * fade_factor + target_hue * inverse_fade
        let fg_saturation := 100 * fade_factor + 85 * inverse_fade
        (fg_hue, fg_saturation)
    let base_fg_lightness := 75 + radial_dist * 8
    let pattern_boost := |fg_pattern| * 6
    let fg_lightness := fclamp (base_fg_lightness + pattern_boost) 75 92
    let sparkle : ℚ :=
      if 0.94 < |radial_wave + sector_pattern| then 6 * fade_factor else 0
    let final_fg_lightness := fclamp (fg_lightness + sparkle) 75 95
    let fg_color := hsl_to_rgb fgp.1 fgp.2 final_fg_lightness
    let bg_color : Option Color :=
      if 0.5 < bg_lightness then
        some (hsl_to_rgb bg_hue bg_saturation bg_lightness)
      else none
    { color := fg_color, bg_color := bg_color, replacement_char := none }

/-- Inline `Typewriter` arm of `render_with_offset`. -/
def inline_typewriter (_ops : AnimOps) (ctx : AnimationContext) :
    CharAnimationResult :=
  let typing_duration : ℚ := 320
  let settle_time : ℚ := 40
  let total_duration := typing_duration + settle_time
  if total_duration < ctx.hue_offset then
    { color := hsl_to_rgb 40 20 85, bg_color := none,
      replacement_char := none }
  else
    let progress := fclamp (ctx.hue_offset / typing_duration) 0 1
    let reveal_count :=
      min (floorToUsize (progress * (ctx.total_chars : ℚ))) ctx.total_chars
    if ctx.char_index < reveal_count then
      { color := hsl_to_rgb 40 20 85, bg_color := none,
        replacement_char := none }
    else if ctx.char_index = reveal_count ∧ reveal_count < ctx.total_chars then
      { color := hsl_to_rgb 200 85 65, bg_color := none,
        replacement_char := some '▌' }
    else if ctx.total_chars ≤ reveal_count then
      { color := hsl_to_rgb 40 20 85, bg_color := none,
        replacement_char := none }
    else
      { color := hsl_to_rgb 0 0 0, bg_color := none,
        replacement_char := some ' ' }

/-- Whitespace branch of `render_with_offset`: only `Kaleidoscope` computes
a background (from the cell's column position within its own line); every
other style produces a black foreground with no background and no
replacement. -/
def inline_whitespace (ops : AnimOps) (style : BannerAnimationStyle)
    (ctx : AnimationContext) : CharAnimationResult :=
  match style with
  | .kaleidoscope =>
    let animation_duration : ℚ := 360
    let fadeout_start : ℚ := 320
    let animation_complete : Prop := animation_duration < ctx.hue_offset
    if animation_complete then
      { color := { r := 0, g := 0, b := 0 }, bg_color := none,
        replacement_char := none }
    else
      let fade_factor :=
        if ctx.hue_offset < fadeout_start then 1
        else 1 - ((ctx.hue_offset - fadeout_start)
          / (animation_duration - fadeout_start))
      let center_y := (ctx.total_rows : ℚ) / 2
      let dist_y := |(ctx.row_index : ℚ) - center_y|
      let total_cols := (ctx.total_cols : ℚ)
      let center_x := total_cols / 2
      let dist_x := |(ctx.col_index : ℚ) - center_x|
      let radial_dist := ops.sqrt (dist_x * dist_x + dist_y * dist_y)
        / max center_x 1
      let angle := ops.atan2 ((ctx.row_index : ℚ) - center_y)
        ((ctx.col_index : ℚ) - center_x) * 180 / ops.pi + 180
      let radial_wave := ops.sin (radial_dist * 6 - ctx.hue_offset * 0.12)
      let sector_count : ℚ := 6
      let sector_pattern :=
        ops.sin ((angle + ctx.hue_offset * 2) * sector_count / 180)
      let bg_complexity := radial_wave * 0.6 + sector_pattern * 0.4
      let bg_hue_base := frem (ctx.hue_offset * 2.5) 360
      let bg_hue := frem (bg_hue_base + bg_complexity * 120) 360
      let bg_saturation := fclamp (60 + |bg_complexity| * 20) 60 80
      let base_bg_lightness := 8 + radial_dist * 6
      let bg_lightness :=
        fclamp (base_bg_lightness + |bg_complexity| * 6) 8 20 * fade_factor
      let bg_color : Option Color :=
        if 0.5 < bg_lightness then
          some (hsl_to_rgb bg_hue bg_saturation bg_lightness)
        else none
      { color := { r := 0, g := 0, b := 0 }, bg_color := bg_color,
        replacement_char := none }
  | _ =>
    { color := { r := 0, g := 0, b := 0 }, bg_color := none,
      replacement_char := none }

/-- The per-cell computation of `RainbowBannerAnimation::render_with_offset`
(`banner.rs`): whitespace cells take the whitespace branch; other cells take
the style's inline arm. (The `_` fallback arm in the source is dead: the
style enumeration is covered in full.) -/
def render_with_offset_cell (ops : AnimOps) (style : BannerAnimationStyle)
    (ctx : AnimationContext) : CharAnimationResult :=
  if ctx.ch.isWhitespace then inline_whitespace ops style ctx
  else
    match style with
    | .rainbow => inline_rainbow ops ctx
    | .flash => inline_flash ops ctx
    | .wave => inline_wave ops ctx
    | .iris => inline_iris ops ctx
    | .plasma => inline_plasma ops ctx
    | .scanner => inline_scanner ops ctx
    | .matrix => inline_matrix ops ctx
    | .neon => inline_neon ops ctx
    | .kaleidoscope => inline_kaleidoscope ops ctx
    | .sepia => inline_sepia ops ctx
    | .prism => inline_prism ops ctx
    | .glitch => inline_glitch ops ctx
    | .breathe => inline_breathe ops ctx
    | .fire => inline_fire ops ctx
    | .aurora => inline_aurora ops ctx
    | .crt => inline_crt ops ctx
    | .typewriter => inline_typewriter ops ctx

lemma packReplacement_eq (c : Color) (o : Option Char) :
    packReplacement c o
      = { color := c, bg_color := none, replacement_char := o } := by
  cases o <;> rfl

lemma ifReplacement_eq (P : Prop) [Decidable P] (c : Color)
    (o : Option Char) :
    (if P then
      { color := c, bg_color := none, replacement_char := o }
     else
      ({ color := c, bg_color := none, replacement_char := none } :
        CharAnimationResult))
      = { color := c, bg_color := none,
          replacement_char := if P then o else none } := by
  split <;> rfl

lemma ifBg_eq (P : Prop) [Decidable P] (fg b : Color) :
    (if P then
      { color := fg, bg_color := some b, replacement_char := none }
     else
      ({ color := fg, bg_color := none, replacement_char := none } :
        CharAnimationResult))
      = { color := fg, bg_color := if P then some b else none,
          replacement_char := none } := by
  split <;> rfl

lemma matrix_inline_eq (ops : AnimOps) (ctx : AnimationContext) :
    Matrix.render_char ops ctx = inline_matrix ops ctx := by
  simp only [Matrix.render_char, inline_matrix, packReplacement_eq]

lemma glitch_inline_eq (ops : AnimOps) (ctx : AnimationContext) :
    Glitch.render_char ops ctx = inline_glitch ops ctx := by
  simp only [Glitch.render_char, inline_glitch, packReplacement_eq,
    CharAnimationResult.with_color, ifReplacement_eq]

lemma kaleidoscope_inline_eq (ops : AnimOps) (ctx : AnimationContext) :
    Kaleidoscope.render_char ops ctx = inline_kaleidoscope ops ctx := by
  simp only [Kaleidoscope.render_char, inline_kaleidoscope,
    CharAnimationResult.with_color, CharAnimationResult.with_bg, ifBg_eq]

lemma fire_inline_eq (ops : AnimOps) (ctx : AnimationContext)
    (h : 1 ≤ ctx.total_rows) :
    Fire.render_char ops ctx = inline_fire ops ctx := by
  have hm : max ((ctx.total_rows : ℚ)) 1 = (ctx.total_rows : ℚ) :=
    max_eq_left (by exact_mod_cast h)
  simp only [Fire.render_char, inline_fire, hm,
    CharAnimationResult.with_color]

lemma crt_inline_eq (ops : AnimOps) (ctx : AnimationContext)
    (h : 1 ≤ ctx.total_rows) :
    Crt.render_char ops ctx = inline_crt ops ctx := by
  have hm : max ((ctx.total_rows : ℚ)) 1 = (ctx.total_rows : ℚ) :=
    max_eq_left (by exact_mod_cast h)
  simp only [Crt.render_char, inline_crt, hm,
    CharAnimationResult.with_color]

/-- C9 (amended): for every interpretation of the float intrinsics, every
style, and every per-cell context with a non-whitespace character and at
least one banner row, the registry implementation
`get_animation(style).render_char(ctx)` computes exactly the per-cell result
of the banner renderer's inline math in `render_with_offset`. (On whitespace
cells the inline renderer never delegates: it produces a black, colorless
cell — with only Kaleidoscope computing a background — so equality fails
there; and the inline Fire/CRT arms floor the row total at 1, so one banner
row must exist.) -/
theorem registry_matches_inline_renderer (ops : AnimOps)
    (style : BannerAnimationStyle) (ctx : AnimationContext)
    (hws : ctx.ch.isWhitespace = false) (hrows : 1 ≤ ctx.total_rows) :
    get_animation style ops ctx = render_with_offset_cell ops style ctx := by
  cases style <;>
    simp only [get_animation, render_with_offset_cell, hws,
      Bool.false_eq_true, if_false]
  case rainbow => rfl
  case flash => rfl
  case wave => rfl
  case iris => rfl
  case plasma => rfl
  case scanner => rfl
  case matrix => exact matrix_inline_eq ops ctx
  case neon => rfl
  case kaleidoscope => exact kaleidoscope_inline_eq ops ctx
  case sepia => rfl
  case prism => rfl
  case glitch => exact glitch_inline_eq ops ctx
  case breathe => rfl
  case fire => exact fire_inline_eq ops ctx hrows
  case aurora => rfl
  case crt => exact crt_inline_eq ops ctx hrows
  case typewriter => rfl

/-- A concrete, fully computable interpretation of the abstract float
intrinsics, used to evaluate the two renderers at explicit inputs. -/
def animOpsZero : AnimOps :=
  { sin := fun _ => 0, cos := fun _ => 0, atan2 := fun _ _ => 0,
    sqrt := fun _ => 0, pi := 0, get_glitched_char := fun _ _ => none }

/-- Witness for C9's amended theorem: the Rainbow style on a one-character
banner cell `'A'`. -/
theorem registry_matches_inline_renderer_witness :
    get_animation .rainbow animOpsZero
      { hue_offset := 0, char_index := 0, total_chars := 1, row_index := 0,
        total_rows := 1, col_index := 0, total_cols := 1, ch := 'A' }
      = render_with_offset_cell animOpsZero .rainbow
          { hue_offset := 0, char_index := 0, total_chars := 1,
            row_index := 0, total_rows := 1, col_index := 0, total_cols := 1,
            ch := 'A' } :=
  registry_matches_inline_renderer animOpsZero .rainbow
    { hue_offset := 0, char_index := 0, total_chars := 1, row_index := 0,
      total_rows := 1, col_index := 0, total_cols := 1, ch := 'A' }
    (by decide) (by decide)

/-- C9 counterexample: on a whitespace cell the two computations disagree.
For the Rainbow style at hue offset 0 on a one-cell banner holding `' '`,
the registry implementation colors the cell pure red (hue 0), while the
inline renderer's whitespace branch leaves it black with no background; the
computation at this input involves no trigonometry, so it is independent of
the abstract intrinsics. -/
theorem registry_inline_differ_on_whitespace :
    get_animation .rainbow animOpsZero
      { hue_offset := 0, char_index := 0, total_chars := 1, row_index := 0,
        total_rows := 1, col_index := 0, total_cols := 1, ch := ' ' }
      = { color := { r := 255, g := 0, b := 0 }, bg_color := none,
          replacement_char := none } ∧
    render_with_offset_cell animOpsZero .rainbow
      { hue_offset := 0, char_index := 0, total_chars := 1, row_index := 0,
        total_rows := 1, col_index := 0, total_cols := 1, ch := ' ' }
      = { color := { r := 0, g := 0, b := 0 }, bg_color := none,
          replacement_char := none } ∧
    ({ color := { r := 255, g := 0, b := 0 }, bg_color := none,
       replacement_char := none } : CharAnimationResult)
      ≠ { color := { r := 0, g := 0, b := 0 }, bg_color := none,
          replacement_char := none } := by
  refine ⟨?_, ?_, by decide⟩
  · simp only [get_animation]
    norm_num [Rainbow.render_char, hsl_to_rgb, frem, qtrunc, castU8,
      CharAnimationResult.with_color]
    decide
  · have hws : (' ').isWhitespace = true := by decide
    simp [render_with_offset_cell, hws, inline_whitespace]
